import Mathlib

/-!
VHDL code generation for LPM devices.

A shallow embedding of `tgt-vhdl/lpm.cc`: the lowering of one primitive (LPM)
device of the elaborated netlist into a VHDL expression, and the driver step
`draw_lpm` that binds the expression to the device's output.

Conventions of the embedding.

* A C++ pointer that may be `NULL` is an `Option`; `none` is `NULL`.
* `unsigned` values are natural numbers; where the source computes on them the
  reduction modulo `2^32` is written out (`unsigned_sub_one`, `int_of_unsigned`).
* The syntax-tree objects are values.  A method that mutates its receiver
  (`set_slice`, `add_expr`, `add_decl`, `add_stmt`) returns the updated value.
* A device is read only through the `ivl_lpm_*` accessors, so `ivl_lpm_t` is the
  record of what the accessors return for the device.
* Helpers that `lpm.cc` calls but that are defined in other translation units
  (`nexus_to_var_ref`, `vhdl_expr::cast`, `vhdl_expr::resize`,
  `vhdl_var_ref::set_slice`, `seen_signal_before`, `get_renamed_signal`) are the
  fields of `vhdl_support`; every function of `lpm.cc` takes them as a parameter.
* Dereferencing `NULL` and a failing `assert` end the run with a `fault`.
-/

namespace TgtVhdl

/-! ## Netlist side -/

/-- Nexus handle `ivl_nexus_t`; `none` is the `NULL` nexus. -/
abbrev ivl_nexus_t := Option Nat

/-- Signal handle `ivl_signal_t`. -/
abbrev ivl_signal_t := Nat

/-- Modelled from the spec: the enumeration `ivl_lpm_type_t` is declared in
`ivl_target.h`, which is not part of the excerpt.  It is the closed catalogue of
device kinds of §2 / §4.3 (arithmetic, shift, compare, multiplex, concatenate,
part-select, reduce, sign-extend, flip-flop/RAM, repeat, function instances);
the fifteen tags named in `lpm_to_expr` come first. -/
inductive ivl_lpm_type_t where
  | IVL_LPM_ADD
  | IVL_LPM_SUB
  | IVL_LPM_MULT
  | IVL_LPM_CONCAT
  | IVL_LPM_PART_VP
  | IVL_LPM_PART_PV
  | IVL_LPM_UFUNC
  | IVL_LPM_RE_AND
  | IVL_LPM_RE_NAND
  | IVL_LPM_RE_NOR
  | IVL_LPM_RE_OR
  | IVL_LPM_RE_XOR
  | IVL_LPM_RE_XNOR
  | IVL_LPM_SIGN_EXT
  | IVL_LPM_ARRAY
  | IVL_LPM_MUX
  | IVL_LPM_FF
  | IVL_LPM_RAM
  | IVL_LPM_SHIFTL
  | IVL_LPM_SHIFTR
  | IVL_LPM_CMP_EEQ
  | IVL_LPM_CMP_EQ
  | IVL_LPM_CMP_GE
  | IVL_LPM_CMP_GT
  | IVL_LPM_CMP_NE
  | IVL_LPM_CMP_NEE
  | IVL_LPM_DIVIDE
  | IVL_LPM_MOD
  | IVL_LPM_REPEAT
  | IVL_LPM_SFUNC
  deriving DecidableEq, Repr

/-- A device as `lpm.cc` sees it: one field per accessor it calls.
`ivl_lpm_data i` and `ivl_lpm_q i` are the nexus of data input / output `i`
(`NULL` when the port is absent); `ivl_lpm_signed` is the `int` the accessor
returns and is tested with `!= 0`. -/
structure ivl_lpm_t where
  ivl_lpm_type : ivl_lpm_type_t
  ivl_lpm_basename : String
  ivl_lpm_width : Nat
  ivl_lpm_signed : Int
  ivl_lpm_base : Nat
  ivl_lpm_selects : Nat
  ivl_lpm_size : Nat
  ivl_lpm_data : Nat → ivl_nexus_t
  ivl_lpm_q : Nat → ivl_nexus_t
  ivl_lpm_select : ivl_nexus_t
  ivl_lpm_array : ivl_signal_t

/-! ## Machine arithmetic -/

/-- The `unsigned` (32-bit) subtraction `u - 1`, that is `u + (2^32 - 1)` reduced
modulo `2^32`. -/
def unsigned_sub_one (u : Nat) : Nat := (4294967295 + u) % 4294967296

/-- Conversion of a 32-bit `unsigned` value to `int` (two's complement). -/
def int_of_unsigned (u : Nat) : Int :=
  if u < 2147483648 then (u : Int) else (u : Int) - 4294967296

/-! ## VHDL syntax tree -/

/-- Modelled from the spec: `vhdl_type` is declared in `vhdl_type.hh`, which is
not part of the excerpt.  The constructors are the types `lpm.cc` builds:
`vhdl_type::std_logic()`, `vhdl_type integer(VHDL_TYPE_INTEGER)`,
`vhdl_type::nsigned(width)` and the unsigned vector that §8 calls
"8-bit unsigned". -/
inductive vhdl_type where
  | std_logic
  | integer
  | nsigned (width : Nat)
  | nunsigned (width : Nat)
  deriving DecidableEq, Repr

/-- Modelled from the spec: `vhdl_type::type_for` is defined in `vhdl_type.cc`,
which is not part of the excerpt.  §4.3 types a result "at the device's declared
width and signedness": a signed vector of that width when the flag is set, an
unsigned one otherwise. -/
def vhdl_type.type_for (width : Nat) (issigned : Bool) : vhdl_type :=
  if issigned then vhdl_type.nsigned width else vhdl_type.nunsigned width

/-- A type has width `w` and signedness `s`: a signed or unsigned vector of `w`
elements, or the single-bit unsigned `std_logic`.  `integer` is not a bit
vector. -/
def vhdl_type.has_geometry (t : vhdl_type) (w : Nat) (s : Bool) : Prop :=
  match t with
  | vhdl_type.std_logic => w = 1 ∧ s = false
  | vhdl_type.integer => False
  | vhdl_type.nsigned n => n = w ∧ s = true
  | vhdl_type.nunsigned n => n = w ∧ s = false

instance (t : vhdl_type) (w : Nat) (s : Bool) : Decidable (t.has_geometry w s) := by
  unfold vhdl_type.has_geometry
  cases t <;> infer_instance

/-- Binary operators used by `lpm.cc`. -/
inductive vhdl_binop_t where
  | VHDL_BINOP_ADD
  | VHDL_BINOP_SUB
  | VHDL_BINOP_MULT
  | VHDL_BINOP_CONCAT
  deriving DecidableEq, Repr

/-- Unary operators used by `lpm.cc`. -/
inductive vhdl_unaryop_t where
  | VHDL_UNARYOP_NOT
  deriving DecidableEq, Repr

mutual
/-- Class `vhdl_var_ref`: a reference to a named object, with an optional slice
(`slice_` base expression and `slice_width_` extent). -/
inductive vhdl_var_ref where
  | mk (name : String) (type : Option vhdl_type)
      (slice : Option vhdl_expr) (slice_width : Nat)
/-- Class `vhdl_expr` and the subclasses `lpm.cc` constructs. -/
inductive vhdl_expr where
  | var_ref (ref : vhdl_var_ref)
  | const_int (value : Int)
  | binop_expr (op : vhdl_binop_t) (type : Option vhdl_type) (operands : List vhdl_expr)
  | unaryop_expr (op : vhdl_unaryop_t) (operand : vhdl_expr) (type : Option vhdl_type)
  | fcall (name : String) (type : Option vhdl_type) (exprs : List vhdl_expr)
end

/-- Name of a reference. -/
def vhdl_var_ref.get_name : vhdl_var_ref → String
  | vhdl_var_ref.mk n _ _ _ => n

/-- Type of a reference. -/
def vhdl_var_ref.get_type : vhdl_var_ref → Option vhdl_type
  | vhdl_var_ref.mk _ t _ _ => t

/-- Slice base of a reference (`NULL` when it is not sliced). -/
def vhdl_var_ref.get_slice : vhdl_var_ref → Option vhdl_expr
  | vhdl_var_ref.mk _ _ s _ => s

/-- Slice extent of a reference. -/
def vhdl_var_ref.get_slice_width : vhdl_var_ref → Nat
  | vhdl_var_ref.mk _ _ _ w => w

/-- The constructor call `new vhdl_var_ref(name, type)`: no slice yet. -/
def vhdl_var_ref.new (name : String) (type : Option vhdl_type) : vhdl_var_ref :=
  vhdl_var_ref.mk name type none 0

/-- Type stored at the root of an expression (`vhdl_expr::get_type`); an integer
literal is of type integer. -/
def vhdl_expr.get_type : vhdl_expr → Option vhdl_type
  | vhdl_expr.var_ref r => r.get_type
  | vhdl_expr.const_int _ => some vhdl_type.integer
  | vhdl_expr.binop_expr _ t _ => t
  | vhdl_expr.unaryop_expr _ _ t => t
  | vhdl_expr.fcall _ t _ => t

mutual
/-- Does a call to function `f` occur anywhere in the reference (in its slice)? -/
def vhdl_var_ref.calls (f : String) : vhdl_var_ref → Bool
  | vhdl_var_ref.mk _ _ none _ => false
  | vhdl_var_ref.mk _ _ (some s) _ => s.calls f
/-- Does a call to function `f` occur anywhere in the expression? -/
def vhdl_expr.calls (f : String) : vhdl_expr → Bool
  | vhdl_expr.var_ref r => r.calls f
  | vhdl_expr.const_int _ => false
  | vhdl_expr.binop_expr _ _ os => calls_list f os
  | vhdl_expr.unaryop_expr _ o _ => o.calls f
  | vhdl_expr.fcall n _ as => n == f || calls_list f as
/-- Does a call to function `f` occur in one of the expressions? -/
def calls_list (f : String) : List vhdl_expr → Bool
  | [] => false
  | e :: es => e.calls f || calls_list f es
end

/-- Is the root of the expression a logical negation? -/
def vhdl_expr.is_negation : vhdl_expr → Bool
  | vhdl_expr.unaryop_expr vhdl_unaryop_t.VHDL_UNARYOP_NOT _ _ => true
  | _ => false

/-- Class `vhdl_signal_decl`: a declared signal. -/
structure vhdl_decl where
  name : String
  type : vhdl_type
  deriving DecidableEq, Repr

/-- Modelled from the spec: `vhdl_scope` is declared in `vhdl_syntax.hh`, which
is not part of the excerpt.  It is the per-scope "already declared" name set of
§5 / §9, kept in declaration order. -/
structure vhdl_scope where
  decls : List vhdl_decl
  deriving DecidableEq, Repr

/-- Modelled from the spec: `vhdl_scope::have_declared`, lookup of a name in the
scope's declarations. -/
def vhdl_scope.have_declared (scope : vhdl_scope) (name : String) : Bool :=
  scope.decls.any (fun d => d.name == name)

/-- Modelled from the spec: `vhdl_scope::get_decl`, the declaration of a name
(`NULL` when there is none). -/
def vhdl_scope.get_decl (scope : vhdl_scope) (name : String) : Option vhdl_decl :=
  scope.decls.find? (fun d => d.name == name)

/-- Modelled from the spec: `vhdl_scope::add_decl`, which records one more
declaration after the existing ones. -/
def vhdl_scope.add_decl (scope : vhdl_scope) (d : vhdl_decl) : vhdl_scope :=
  { decls := scope.decls ++ [d] }

/-- Class `vhdl_cassign_stmt`: the concurrent assignment `lhs <= rhs`. -/
structure vhdl_cassign_stmt where
  lhs : vhdl_var_ref
  rhs : vhdl_expr

/-- Modelled from the spec: `vhdl_arch` is declared in `vhdl_syntax.hh`, which is
not part of the excerpt: one architecture body, its scope and its concurrent
statements in emission order. -/
structure vhdl_arch where
  scope : vhdl_scope
  stmts : List vhdl_cassign_stmt

/-- Modelled from the spec: `vhdl_arch::add_stmt`, which appends one statement. -/
def vhdl_arch.add_stmt (arch : vhdl_arch) (s : vhdl_cassign_stmt) : vhdl_arch :=
  { arch with stmts := arch.stmts ++ [s] }

/-- One call of `error(fmt, tag)`: the format string and the kind tag handed to
it. -/
structure vhdl_error where
  fmt : String
  arg : ivl_lpm_type_t
  deriving DecidableEq, Repr

/-- Ways a run ends abnormally. -/
inductive fault where
  | null_deref
  | assert_failed
  deriving DecidableEq, Repr

/-- The helpers `lpm.cc` calls that are defined outside it.  Pointer results are
`Option`s. -/
structure vhdl_support where
  nexus_to_var_ref : vhdl_scope → ivl_nexus_t → Option vhdl_var_ref
  cast : vhdl_expr → vhdl_type → Option vhdl_expr
  resize : vhdl_expr → Nat → Option vhdl_expr
  set_slice : vhdl_var_ref → vhdl_expr → Nat → vhdl_var_ref
  set_slice_index : vhdl_var_ref → vhdl_expr → vhdl_var_ref
  seen_signal_before : ivl_signal_t → Bool
  get_renamed_signal : ivl_signal_t → String

/-! ## lpm.cc -/

/-- Return the base of a part select (`part_select_base`).  `off->cast` on an
unresolved (`NULL`) dynamic base dereferences `NULL`. -/
def part_select_base (env : vhdl_support) (scope : vhdl_scope) (lpm : ivl_lpm_t) :
    Except fault (Option vhdl_expr) :=
  match lpm.ivl_lpm_data 1 with
  | some base =>
    match env.nexus_to_var_ref scope (some base) with
    | some off => Except.ok (env.cast (vhdl_expr.var_ref off) vhdl_type.integer)
    | none => Except.error fault.null_deref
  | none =>
    Except.ok (env.cast (vhdl_expr.const_int (lpm.ivl_lpm_base : Int)) vhdl_type.integer)

/-- Name of the intermediate output signal of a device. -/
def lpm_output_name (lpm : ivl_lpm_t) : String :=
  "LPM" ++ lpm.ivl_lpm_basename ++ "_Out"

/-- Lines 45-60 of `lpm_output` on their own: the destination reference before
any slice is set on it, and the scope after the declaration step. -/
def lpm_output_ref (env : vhdl_support) (scope : vhdl_scope) (lpm : ivl_lpm_t) :
    vhdl_var_ref × vhdl_scope :=
  match env.nexus_to_var_ref scope (lpm.ivl_lpm_q 0) with
  | some out => (out, scope)
  | none =>
    let type := vhdl_type.type_for lpm.ivl_lpm_width (lpm.ivl_lpm_signed != 0)
    let name := lpm_output_name lpm
    let scope1 :=
      if !scope.have_declared name then scope.add_decl { name := name, type := type }
      else scope
    (vhdl_var_ref.new name (some type), scope1)

/-- The destination reference of a device (`lpm_output`), with the scope as the
call leaves it. -/
def lpm_output (env : vhdl_support) (scope : vhdl_scope) (lpm : ivl_lpm_t) :
    Except fault (vhdl_var_ref × vhdl_scope) :=
  let found : vhdl_var_ref × vhdl_scope :=
    match env.nexus_to_var_ref scope (lpm.ivl_lpm_q 0) with
    | some out => (out, scope)
    | none =>
      let type := vhdl_type.type_for lpm.ivl_lpm_width (lpm.ivl_lpm_signed != 0)
      let name := lpm_output_name lpm
      let scope1 :=
        if !scope.have_declared name then scope.add_decl { name := name, type := type }
        else scope
      (vhdl_var_ref.new name (some type), scope1)
  if lpm.ivl_lpm_type = ivl_lpm_type_t.IVL_LPM_PART_PV then
    match part_select_base env found.2 lpm with
    | Except.error f => Except.error f
    | Except.ok none => Except.error fault.assert_failed
    | Except.ok (some off) =>
      Except.ok (env.set_slice found.1 off (unsigned_sub_one lpm.ivl_lpm_width), found.2)
  else
    Except.ok found

/-- The loop of `concat_lpm_to_expr`.  The first argument is `i + 1` for the loop
variable `i`; at `0` the test `i >= 0` fails and the loop ends. -/
def concat_loop (env : vhdl_support) (scope : vhdl_scope) (lpm : ivl_lpm_t) :
    Nat → List vhdl_expr → Option (List vhdl_expr)
  | 0, operands => some operands
  | i + 1, operands =>
    match env.nexus_to_var_ref scope (lpm.ivl_lpm_data i) with
    | none => none
    | some e => concat_loop env scope lpm i (operands ++ [vhdl_expr.var_ref e])

/-- Lowering of a concatenation (`concat_lpm_to_expr`).  The loop variable starts
at `int i = ivl_lpm_selects(lpm) - 1`. -/
def concat_lpm_to_expr (env : vhdl_support) (scope : vhdl_scope) (lpm : ivl_lpm_t) :
    Option vhdl_expr :=
  let result_type := vhdl_type.type_for lpm.ivl_lpm_width (lpm.ivl_lpm_signed != 0)
  let start : Int := int_of_unsigned (unsigned_sub_one lpm.ivl_lpm_selects)
  match concat_loop env scope lpm (start + 1).toNat [] with
  | none => none
  | some operands =>
    some (vhdl_expr.binop_expr vhdl_binop_t.VHDL_BINOP_CONCAT (some result_type) operands)

/-- Lowering of an arithmetic device (`binop_lpm_to_expr`). -/
def binop_lpm_to_expr (env : vhdl_support) (scope : vhdl_scope) (lpm : ivl_lpm_t)
    (op : vhdl_binop_t) : Option vhdl_expr :=
  let result_type := vhdl_type.type_for lpm.ivl_lpm_width (lpm.ivl_lpm_signed != 0)
  match env.nexus_to_var_ref scope (lpm.ivl_lpm_data 0) with
  | none => none
  | some e0 =>
    match env.nexus_to_var_ref scope (lpm.ivl_lpm_data 1) with
    | none => none
    | some e1 =>
      let expr := vhdl_expr.binop_expr op (some result_type)
        [vhdl_expr.var_ref e0, vhdl_expr.var_ref e1]
      if op = vhdl_binop_t.VHDL_BINOP_MULT then
        let out_width := lpm.ivl_lpm_width
        some (vhdl_expr.fcall "Resize" (some (vhdl_type.nsigned out_width))
          [expr, vhdl_expr.const_int (out_width : Int)])
      else
        some expr

/-- Lowering of a part select, vector to part (`part_select_vp_lpm_to_expr`). -/
def part_select_vp_lpm_to_expr (env : vhdl_support) (scope : vhdl_scope)
    (lpm : ivl_lpm_t) : Except fault (Option vhdl_expr) :=
  match env.nexus_to_var_ref scope (lpm.ivl_lpm_data 0) with
  | none => Except.ok none
  | some selfrom =>
    match part_select_base env scope lpm with
    | Except.error f => Except.error f
    | Except.ok none => Except.ok none
    | Except.ok (some off) =>
      Except.ok (some (vhdl_expr.var_ref
        (env.set_slice selfrom off (unsigned_sub_one lpm.ivl_lpm_width))))

/-- Lowering of a part select, part to vector (`part_select_pv_lpm_to_expr`). -/
def part_select_pv_lpm_to_expr (env : vhdl_support) (scope : vhdl_scope)
    (lpm : ivl_lpm_t) : Option vhdl_expr :=
  (env.nexus_to_var_ref scope (lpm.ivl_lpm_data 0)).map vhdl_expr.var_ref

/-- The loop of `ufunc_lpm_to_expr`.  The first argument is the number of
iterations left, `ivl_lpm_size(lpm) - i`; at `0` the test `i < size` fails. -/
def ufunc_loop (env : vhdl_support) (scope : vhdl_scope) (lpm : ivl_lpm_t) :
    Nat → Nat → List vhdl_expr → Option (List vhdl_expr)
  | 0, _, exprs => some exprs
  | left + 1, i, exprs =>
    match env.nexus_to_var_ref scope (lpm.ivl_lpm_data i) with
    | none => none
    | some ref => ufunc_loop env scope lpm left (i + 1) (exprs ++ [vhdl_expr.var_ref ref])

/-- Lowering of a user function instance (`ufunc_lpm_to_expr`). -/
def ufunc_lpm_to_expr (env : vhdl_support) (scope : vhdl_scope) (lpm : ivl_lpm_t) :
    Option vhdl_expr :=
  match ufunc_loop env scope lpm lpm.ivl_lpm_size 0 [] with
  | none => none
  | some exprs => some (vhdl_expr.fcall lpm.ivl_lpm_basename none exprs)

/-- Lowering of a reduction (`reduction_lpm_to_expr`). -/
def reduction_lpm_to_expr (env : vhdl_support) (scope : vhdl_scope) (lpm : ivl_lpm_t)
    (rfunc : String) (invert : Bool) : Option vhdl_expr :=
  match env.nexus_to_var_ref scope (lpm.ivl_lpm_data 0) with
  | none => none
  | some ref =>
    let fcall := vhdl_expr.fcall rfunc (some vhdl_type.std_logic) [vhdl_expr.var_ref ref]
    if invert then
      some (vhdl_expr.unaryop_expr vhdl_unaryop_t.VHDL_UNARYOP_NOT fcall
        (some vhdl_type.std_logic))
    else
      some fcall

/-- Lowering of a sign extension (`sign_extend_lpm_to_expr`). -/
def sign_extend_lpm_to_expr (env : vhdl_support) (scope : vhdl_scope)
    (lpm : ivl_lpm_t) : Option vhdl_expr :=
  match env.nexus_to_var_ref scope (lpm.ivl_lpm_data 0) with
  | some ref => env.resize (vhdl_expr.var_ref ref) lpm.ivl_lpm_width
  | none => none

/-- Lowering of an array read (`array_lpm_to_expr`). -/
def array_lpm_to_expr (env : vhdl_support) (scope : vhdl_scope) (lpm : ivl_lpm_t) :
    Except fault (Option vhdl_expr) :=
  let array := lpm.ivl_lpm_array
  if !env.seen_signal_before array then Except.ok none
  else
    let renamed := env.get_renamed_signal array
    match scope.get_decl renamed with
    | none => Except.error fault.assert_failed
    | some adecl =>
      let atype := adecl.type
      match env.nexus_to_var_ref scope lpm.ivl_lpm_select with
      | none => Except.ok none
      | some select =>
        let ref := vhdl_var_ref.new renamed (some atype)
        Except.ok (some (vhdl_expr.var_ref
          (env.set_slice_index ref (vhdl_expr.var_ref select))))

/-- The diagnostic of the `default:` arm of `lpm_to_expr`. -/
def unsupported_lpm_type (t : ivl_lpm_type_t) : vhdl_error :=
  { fmt := "Unsupported LPM type: %d", arg := t }

/-- Dispatch on the device kind (`lpm_to_expr`): the outcome of the lowering and
the diagnostics reported through `error` during the call. -/
def lpm_to_expr (env : vhdl_support) (scope : vhdl_scope) (lpm : ivl_lpm_t) :
    Except fault (Option vhdl_expr) × List vhdl_error :=
  match lpm.ivl_lpm_type with
  | ivl_lpm_type_t.IVL_LPM_ADD =>
    (Except.ok (binop_lpm_to_expr env scope lpm vhdl_binop_t.VHDL_BINOP_ADD), [])
  | ivl_lpm_type_t.IVL_LPM_SUB =>
    (Except.ok (binop_lpm_to_expr env scope lpm vhdl_binop_t.VHDL_BINOP_SUB), [])
  | ivl_lpm_type_t.IVL_LPM_MULT =>
    (Except.ok (binop_lpm_to_expr env scope lpm vhdl_binop_t.VHDL_BINOP_MULT), [])
  | ivl_lpm_type_t.IVL_LPM_CONCAT => (Except.ok (concat_lpm_to_expr env scope lpm), [])
  | ivl_lpm_type_t.IVL_LPM_PART_VP => (part_select_vp_lpm_to_expr env scope lpm, [])
  | ivl_lpm_type_t.IVL_LPM_PART_PV =>
    (Except.ok (part_select_pv_lpm_to_expr env scope lpm), [])
  | ivl_lpm_type_t.IVL_LPM_UFUNC => (Except.ok (ufunc_lpm_to_expr env scope lpm), [])
  | ivl_lpm_type_t.IVL_LPM_RE_AND =>
    (Except.ok (reduction_lpm_to_expr env scope lpm "Reduce_AND" false), [])
  | ivl_lpm_type_t.IVL_LPM_RE_NAND =>
    (Except.ok (reduction_lpm_to_expr env scope lpm "Reduce_AND" true), [])
  | ivl_lpm_type_t.IVL_LPM_RE_NOR =>
    (Except.ok (reduction_lpm_to_expr env scope lpm "Reduce_OR" true), [])
  | ivl_lpm_type_t.IVL_LPM_RE_OR =>
    (Except.ok (reduction_lpm_to_expr env scope lpm "Reduce_OR" false), [])
  | ivl_lpm_type_t.IVL_LPM_RE_XOR =>
    (Except.ok (reduction_lpm_to_expr env scope lpm "Reduce_XOR" false), [])
  | ivl_lpm_type_t.IVL_LPM_RE_XNOR =>
    (Except.ok (reduction_lpm_to_expr env scope lpm "Reduce_XNOR" false), [])
  | ivl_lpm_type_t.IVL_LPM_SIGN_EXT =>
    (Except.ok (sign_extend_lpm_to_expr env scope lpm), [])
  | ivl_lpm_type_t.IVL_LPM_ARRAY => (array_lpm_to_expr env scope lpm, [])
  | t => (Except.ok none, [unsupported_lpm_type t])

/-- What `draw_lpm` works on: the architecture under construction and the
diagnostics reported so far. -/
structure draw_state where
  arch : vhdl_arch
  errors : List vhdl_error

/-- Lower one device and bind the result to its output (`draw_lpm`): the `int`
returned and the state the call leaves. -/
def draw_lpm (env : vhdl_support) (st : draw_state) (lpm : ivl_lpm_t) :
    Except fault (Int × draw_state) :=
  let lowered := lpm_to_expr env st.arch.scope lpm
  let errors := st.errors ++ lowered.2
  match lowered.1 with
  | Except.error f => Except.error f
  | Except.ok none => Except.ok (0, { arch := st.arch, errors := errors })
  | Except.ok (some f) =>
    match lpm_output env st.arch.scope lpm with
    | Except.error e => Except.error e
    | Except.ok (out, scope1) =>
      let arch1 : vhdl_arch := { scope := scope1, stmts := st.arch.stmts }
      Except.ok (0, { arch := arch1.add_stmt { lhs := out, rhs := f }, errors := errors })

/-- Modelled from the spec: the driver loop over the devices of a scope is not
part of the excerpt.  §4.4: it "walks devices in declaration order" and "invokes
4.3 per device"; §7: a local failure does not stop the traversal, a fatal one
does. -/
def draw_lpms (env : vhdl_support) : draw_state → List ivl_lpm_t → Except fault draw_state
  | st, [] => Except.ok st
  | st, lpm :: rest =>
    match draw_lpm env st lpm with
    | Except.error f => Except.error f
    | Except.ok (_, st1) => draw_lpms env st1 rest

/-- The fifteen kinds `lpm_to_expr` has a case for. -/
def ivl_lpm_type_t.handled : ivl_lpm_type_t → Bool
  | ivl_lpm_type_t.IVL_LPM_ADD => true
  | ivl_lpm_type_t.IVL_LPM_SUB => true
  | ivl_lpm_type_t.IVL_LPM_MULT => true
  | ivl_lpm_type_t.IVL_LPM_CONCAT => true
  | ivl_lpm_type_t.IVL_LPM_PART_VP => true
  | ivl_lpm_type_t.IVL_LPM_PART_PV => true
  | ivl_lpm_type_t.IVL_LPM_UFUNC => true
  | ivl_lpm_type_t.IVL_LPM_RE_AND => true
  | ivl_lpm_type_t.IVL_LPM_RE_NAND => true
  | ivl_lpm_type_t.IVL_LPM_RE_NOR => true
  | ivl_lpm_type_t.IVL_LPM_RE_OR => true
  | ivl_lpm_type_t.IVL_LPM_RE_XOR => true
  | ivl_lpm_type_t.IVL_LPM_RE_XNOR => true
  | ivl_lpm_type_t.IVL_LPM_SIGN_EXT => true
  | ivl_lpm_type_t.IVL_LPM_ARRAY => true
  | _ => false

/-! ## Sample inputs

A concrete instance of the helper interface and a concrete scope and device, on
which the theorems below are exercised. -/

/-- A sample resolver and syntax-tree helpers: nexus `n` is attached to the
`n`-th declared signal of the scope and every other nexus is unnamed; a cast to
the type an expression already has is the expression itself. -/
def sample_support : vhdl_support where
  nexus_to_var_ref := fun scope nexus =>
    match nexus with
    | none => none
    | some n => (scope.decls[n]?).map (fun d => vhdl_var_ref.new d.name (some d.type))
  cast := fun e t =>
    if e.get_type = some t then some e else some (vhdl_expr.fcall "To_Integer" (some t) [e])
  resize := fun e w => some (vhdl_expr.fcall "Resize" e.get_type [e, vhdl_expr.const_int (w : Int)])
  set_slice := fun r s w => vhdl_var_ref.mk r.get_name r.get_type (some s) w
  set_slice_index := fun r s => vhdl_var_ref.mk r.get_name r.get_type (some s) 0
  seen_signal_before := fun _ => true
  get_renamed_signal := fun _ => "mem"

/-- A sample scope: four 8-bit unsigned signals and a 2-bit select. -/
def sample_scope : vhdl_scope :=
  { decls := [{ name := "a", type := vhdl_type.nunsigned 8 },
              { name := "b", type := vhdl_type.nunsigned 8 },
              { name := "c", type := vhdl_type.nunsigned 8 },
              { name := "d", type := vhdl_type.nunsigned 8 },
              { name := "sel", type := vhdl_type.nunsigned 2 }] }

/-- A sample device of a given kind: unsigned, 8 bits wide, data inputs `0..3`
on the nexus of `a`, `b`, `c`, `d`, the select on the nexus of `sel`, and the
output on an unnamed nexus. -/
def sample_lpm (t : ivl_lpm_type_t) : ivl_lpm_t :=
  { ivl_lpm_type := t
    ivl_lpm_basename := "u1"
    ivl_lpm_width := 8
    ivl_lpm_signed := 0
    ivl_lpm_base := 2
    ivl_lpm_selects := 3
    ivl_lpm_size := 2
    ivl_lpm_data := fun i => if i < 4 then some i else none
    ivl_lpm_q := fun _ => some 100
    ivl_lpm_select := some 4
    ivl_lpm_array := 0 }

/-- A sample 4-to-1 multiplexer, 8 bits wide: four data inputs on the nexus of
`a`, `b`, `c`, `d` and a 2-bit select on the nexus of `sel`. -/
def sample_mux : ivl_lpm_t :=
  { sample_lpm ivl_lpm_type_t.IVL_LPM_MUX with ivl_lpm_size := 4, ivl_lpm_selects := 2 }

/-- A sample starting state: the sample scope, no statement, no diagnostic. -/
def sample_state : draw_state :=
  { arch := { scope := sample_scope, stmts := [] }, errors := [] }

/-- The sample scope with an array signal `mem` declared after the others. -/
def sample_array_scope : vhdl_scope :=
  { decls := sample_scope.decls ++ [{ name := "mem", type := vhdl_type.nunsigned 8 }] }

/-- The sample helpers, with no signal seen yet. -/
def sample_support_unseen : vhdl_support :=
  { sample_support with seen_signal_before := fun _ => false }

/-- The sample scope with a 4-bit signal already declared under the output name
of the sample device. -/
def sample_clash_scope : vhdl_scope :=
  { decls := sample_scope.decls ++ [{ name := "LPMu1_Out", type := vhdl_type.nunsigned 4 }] }

/-- A sample device of a given kind none of whose data inputs resolves: every
input is on an unnamed nexus. -/
def sample_lpm_unresolved (t : ivl_lpm_type_t) : ivl_lpm_t :=
  { sample_lpm t with ivl_lpm_data := fun _ => some 100 }

/-- A sample part select whose operand resolves to `a` and whose dynamic base is
on an unnamed nexus. -/
def sample_lpm_base_unresolved (t : ivl_lpm_type_t) : ivl_lpm_t :=
  { sample_lpm t with ivl_lpm_data := fun i => if i = 0 then some 0 else some 100 }

/-- A sample part select with a constant base: base 2, width 8, operand `a`, no
second data port. -/
def sample_lpm_constant_base (t : ivl_lpm_type_t) : ivl_lpm_t :=
  { sample_lpm t with ivl_lpm_data := fun i => if i = 0 then some 0 else none }

/-- The reference to sample signal `a`. -/
def ref_a : vhdl_var_ref := vhdl_var_ref.new "a" (some (vhdl_type.nunsigned 8))

/-- The reference to sample signal `b`. -/
def ref_b : vhdl_var_ref := vhdl_var_ref.new "b" (some (vhdl_type.nunsigned 8))

/-- The reference to sample signal `c`. -/
def ref_c : vhdl_var_ref := vhdl_var_ref.new "c" (some (vhdl_type.nunsigned 8))

/-! ## Theorems -/

open ivl_lpm_type_t vhdl_binop_t vhdl_unaryop_t

/-- The loop start `int i = selects - 1` gives `selects` iterations as long as
`selects - 1` is representable as a non-negative `int`. -/
theorem concat_iterations (k : Nat) (h : k ≤ 2147483648) :
    (int_of_unsigned (unsigned_sub_one k) + 1).toNat = k := by
  unfold int_of_unsigned unsigned_sub_one
  split <;> omega

/-- The concatenation loop run from `i = n - 1` down to `0` appends the
resolutions of inputs `n-1, ..., 0` in that order. -/
theorem concat_loop_resolved (env : vhdl_support) (scope : vhdl_scope) (lpm : ivl_lpm_t)
    (r : Nat → vhdl_var_ref) (n : Nat) :
    ∀ acc : List vhdl_expr,
      (∀ i, i < n → env.nexus_to_var_ref scope (lpm.ivl_lpm_data i) = some (r i)) →
      concat_loop env scope lpm n acc
        = some (acc ++ ((List.range n).map (fun i => vhdl_expr.var_ref (r i))).reverse) := by
  induction n with
  | zero => intro acc _; simp [concat_loop]
  | succ m ih =>
    intro acc h
    have hm := h m (Nat.lt_succ_self m)
    have ih1 := ih (acc ++ [vhdl_expr.var_ref (r m)])
      (fun i hi => h i (Nat.lt_succ_of_lt hi))
    simp [concat_loop, hm, ih1, List.range_succ]

/-- The user-function loop run from index `i` for `left` more iterations appends
the resolutions of inputs `i, ..., i + left - 1` in that order. -/
theorem ufunc_loop_resolved (env : vhdl_support) (scope : vhdl_scope) (lpm : ivl_lpm_t)
    (r : Nat → vhdl_var_ref) (left : Nat) :
    ∀ (i : Nat) (acc : List vhdl_expr),
      (∀ j, i ≤ j → j < i + left →
        env.nexus_to_var_ref scope (lpm.ivl_lpm_data j) = some (r j)) →
      ufunc_loop env scope lpm left i acc
        = some (acc ++ (List.range' i left).map (fun j => vhdl_expr.var_ref (r j))) := by
  induction left with
  | zero => intro i acc _; simp [ufunc_loop]
  | succ m ih =>
    intro i acc h
    have hi := h i (Nat.le_refl i) (by omega)
    have ih1 := ih (i + 1) (acc ++ [vhdl_expr.var_ref (r i)])
      (fun j h1 h2 => h j (by omega) (by omega))
    simp [ufunc_loop, hi, ih1, List.range'_succ]

/-- The declared-width, declared-signedness type has that width and signedness. -/
theorem type_for_has_geometry (w : Nat) (s : Bool) :
    (vhdl_type.type_for w s).has_geometry w s := by
  cases s <;> simp [vhdl_type.type_for, vhdl_type.has_geometry]

/-- A kind without a case in `lpm_to_expr` takes the `default:` arm. -/
theorem lpm_to_expr_default (env : vhdl_support) (scope : vhdl_scope) (lpm : ivl_lpm_t)
    (h : lpm.ivl_lpm_type.handled = false) :
    lpm_to_expr env scope lpm = (Except.ok none, [unsupported_lpm_type lpm.ivl_lpm_type]) := by
  unfold lpm_to_expr
  cases hk : lpm.ivl_lpm_type <;> simp_all [ivl_lpm_type_t.handled]

/-- What `draw_lpm` does to the architecture, and what it returns, depends on
the architecture only, not on the diagnostics reported before. -/
theorem draw_lpm_arch_only (env : vhdl_support) (lpm : ivl_lpm_t) (st st2 : draw_state)
    (h : st.arch = st2.arch) :
    (draw_lpm env st lpm).map (fun p => (p.1, p.2.arch))
      = (draw_lpm env st2 lpm).map (fun p => (p.1, p.2.arch)) := by
  unfold draw_lpm
  rw [h]
  dsimp only
  generalize lpm_to_expr env st2.arch.scope lpm = lowered
  generalize lpm_output env st2.arch.scope lpm = out
  rcases lowered with ⟨res, errs⟩
  rcases res with f | o
  · rfl
  · rcases o with _ | f
    · rfl
    · rcases out with e | q
      · rfl
      · rfl

/-- The architecture a run of the driver produces depends on the starting
architecture only. -/
theorem draw_lpms_arch_only (env : vhdl_support) (lpms : List ivl_lpm_t) :
    ∀ st st2 : draw_state, st.arch = st2.arch →
      (draw_lpms env st lpms).map (fun s => s.arch)
        = (draw_lpms env st2 lpms).map (fun s => s.arch) := by
  induction lpms with
  | nil => intro st st2 h; simp [draw_lpms, Except.map, h]
  | cons lpm rest ih =>
    intro st st2 h
    have h1 := draw_lpm_arch_only env lpm st st2 h
    unfold draw_lpms
    cases ha : draw_lpm env st lpm with
    | error f =>
      cases hb : draw_lpm env st2 lpm with
      | error g => rw [ha, hb] at h1; simpa [Except.map] using h1
      | ok q => rw [ha, hb] at h1; simp [Except.map] at h1
    | ok p =>
      cases hb : draw_lpm env st2 lpm with
      | error g => rw [ha, hb] at h1; simp [Except.map] at h1
      | ok q =>
        rw [ha, hb] at h1
        simp only [Except.map, Except.ok.injEq, Prod.mk.injEq] at h1
        exact ih p.2 q.2 h1.2

/-- Running the driver over `xs ++ ys` is running it over `xs` and then, from
the state reached, over `ys`. -/
theorem draw_lpms_append (env : vhdl_support) (xs ys : List ivl_lpm_t) :
    ∀ st : draw_state,
      draw_lpms env st (xs ++ ys)
        = match draw_lpms env st xs with
          | Except.error f => Except.error f
          | Except.ok st1 => draw_lpms env st1 ys := by
  induction xs with
  | nil => intro st; simp [draw_lpms]
  | cons x rest ih =>
    intro st
    simp only [List.cons_append, draw_lpms]
    cases draw_lpm env st x with
    | error f => rfl
    | ok p => exact ih p.2

/-- The function `lpm_output` is `lpm_output_ref` followed by the slice step of a
part-select-PV device. -/
theorem lpm_output_eq (env : vhdl_support) (scope : vhdl_scope) (lpm : ivl_lpm_t) :
    lpm_output env scope lpm
      = if lpm.ivl_lpm_type = IVL_LPM_PART_PV then
          match part_select_base env (lpm_output_ref env scope lpm).2 lpm with
          | Except.error f => Except.error f
          | Except.ok none => Except.error fault.assert_failed
          | Except.ok (some off) =>
            Except.ok (env.set_slice (lpm_output_ref env scope lpm).1 off
              (unsigned_sub_one lpm.ivl_lpm_width), (lpm_output_ref env scope lpm).2)
        else
          Except.ok (lpm_output_ref env scope lpm) := rfl

/-- A name that is not declared is found, after `add_decl`, at the declaration
just added. -/
theorem get_decl_add_decl (scope : vhdl_scope) (d : vhdl_decl)
    (h : scope.have_declared d.name = false) :
    (scope.add_decl d).get_decl d.name = some d := by
  unfold vhdl_scope.have_declared at h
  unfold vhdl_scope.get_decl vhdl_scope.add_decl
  rw [List.find?_append]
  have hnone : List.find? (fun x => x.name == d.name) scope.decls = none := by
    rw [List.find?_eq_none]
    intro x hx
    have := List.any_eq_false.mp h x hx
    simpa using this
  simp [hnone]

/-- The destination step of `lpm_output` for an output nexus that does not
resolve: a new reference under the output name, and the declaration added
unless the name is declared already. -/
theorem lpm_output_ref_unresolved (env : vhdl_support) (scope : vhdl_scope) (lpm : ivl_lpm_t)
    (hq : env.nexus_to_var_ref scope (lpm.ivl_lpm_q 0) = none) :
    lpm_output_ref env scope lpm
      = (vhdl_var_ref.mk (lpm_output_name lpm)
          (some (vhdl_type.type_for lpm.ivl_lpm_width (lpm.ivl_lpm_signed != 0))) none 0,
         if scope.have_declared (lpm_output_name lpm) = true then scope
         else scope.add_decl
           { name := lpm_output_name lpm
             type := vhdl_type.type_for lpm.ivl_lpm_width (lpm.ivl_lpm_signed != 0) }) := by
  cases hd : scope.have_declared (lpm_output_name lpm) <;>
    simp [lpm_output_ref, hq, hd, vhdl_var_ref.new]

/-- The destination step of `lpm_output` for an output nexus that resolves: the
resolved reference, and the scope as it was. -/
theorem lpm_output_ref_resolved (env : vhdl_support) (scope : vhdl_scope) (lpm : ivl_lpm_t)
    (o : vhdl_var_ref)
    (hq : env.nexus_to_var_ref scope (lpm.ivl_lpm_q 0) = some o) :
    lpm_output_ref env scope lpm = (o, scope) := by
  simp [lpm_output_ref, hq]

/-- The scope `lpm_output` returns is the scope of its destination step. -/
theorem lpm_output_scope (env : vhdl_support) (scope : vhdl_scope) (lpm : ivl_lpm_t)
    (out : vhdl_var_ref) (scope1 : vhdl_scope)
    (h : lpm_output env scope lpm = Except.ok (out, scope1)) :
    scope1 = (lpm_output_ref env scope lpm).2 := by
  rw [lpm_output_eq] at h
  by_cases hk : lpm.ivl_lpm_type = IVL_LPM_PART_PV
  · rw [if_pos hk] at h
    cases hb : part_select_base env (lpm_output_ref env scope lpm).2 lpm with
    | error f => rw [hb] at h; simp at h
    | ok o =>
      cases o with
      | none => rw [hb] at h; simp at h
      | some off =>
        rw [hb] at h
        simp only [Except.ok.injEq, Prod.mk.injEq] at h
        exact h.2.symm
  · rw [if_neg hk] at h
    injection h with h
    rw [h]

/-- Adding a declaration under a name that is not declared keeps the declared
names pairwise distinct. -/
theorem nodup_names_add_decl (scope : vhdl_scope) (d : vhdl_decl)
    (h : scope.have_declared d.name = false)
    (hn : (scope.decls.map (fun x => x.name)).Nodup) :
    ((scope.add_decl d).decls.map (fun x => x.name)).Nodup := by
  unfold vhdl_scope.have_declared at h
  unfold vhdl_scope.add_decl
  rw [List.map_append, List.nodup_append]
  refine ⟨hn, by simp, ?_⟩
  intro a ha hb
  simp at hb
  subst hb
  rw [List.mem_map] at ha
  obtain ⟨x, hx, hxa⟩ := ha
  have := List.any_eq_false.mp h x hx
  simp [hxa] at this

/-- The destination step of `lpm_output` either leaves the scope as it is or adds
one declaration, under the output name, which was not declared. -/
theorem lpm_output_ref_scope_cases (env : vhdl_support) (scope : vhdl_scope)
    (lpm : ivl_lpm_t) :
    (lpm_output_ref env scope lpm).2 = scope
    ∨ (scope.have_declared (lpm_output_name lpm) = false
        ∧ (lpm_output_ref env scope lpm).2
            = scope.add_decl
                { name := lpm_output_name lpm
                  type := vhdl_type.type_for lpm.ivl_lpm_width (lpm.ivl_lpm_signed != 0) }) := by
  cases hq : env.nexus_to_var_ref scope (lpm.ivl_lpm_q 0) with
  | some o =>
    left
    rw [lpm_output_ref_resolved env scope lpm o hq]
  | none =>
    rw [lpm_output_ref_unresolved env scope lpm hq]
    cases hd : scope.have_declared (lpm_output_name lpm)
    · right
      exact ⟨rfl, by simp⟩
    · left
      simp

/-- The destination step of `lpm_output` keeps the declared names pairwise
distinct. -/
theorem lpm_output_ref_nodup (env : vhdl_support) (scope : vhdl_scope) (lpm : ivl_lpm_t)
    (hn : (scope.decls.map (fun x => x.name)).Nodup) :
    ((lpm_output_ref env scope lpm).2.decls.map (fun x => x.name)).Nodup := by
  rcases lpm_output_ref_scope_cases env scope lpm with h | ⟨hd, h⟩
  · rw [h]
    exact hn
  · rw [h]
    exact nodup_names_add_decl scope _ hd hn

/-- The concatenation loop run from `i = n - 1` down to `0` yields an operand
list exactly when every input below `n` resolves. -/
theorem concat_loop_isSome (env : vhdl_support) (scope : vhdl_scope) (lpm : ivl_lpm_t)
    (n : Nat) :
    ∀ acc : List vhdl_expr,
      ((concat_loop env scope lpm n acc).isSome = true
        ↔ ∀ i, i < n → (env.nexus_to_var_ref scope (lpm.ivl_lpm_data i)).isSome = true) := by
  induction n with
  | zero => intro acc; simp [concat_loop]
  | succ m ih =>
    intro acc
    cases hm : env.nexus_to_var_ref scope (lpm.ivl_lpm_data m) with
    | none =>
      simp only [concat_loop, hm, Option.isSome_none, Bool.false_eq_true, false_iff]
      intro hall
      have := hall m (Nat.lt_succ_self m)
      simp [hm] at this
    | some e =>
      simp only [concat_loop, hm]
      rw [ih]
      constructor
      · intro hall i hi
        rcases Nat.lt_succ_iff_lt_or_eq.mp hi with h1 | h1
        · exact hall i h1
        · subst h1
          simp [hm]
      · intro hall i hi
        exact hall i (Nat.lt_succ_of_lt hi)

/-- The user-function loop run from index `i` for `left` more iterations yields
an argument list exactly when every input from `i` to `i + left - 1`
resolves. -/
theorem ufunc_loop_isSome (env : vhdl_support) (scope : vhdl_scope) (lpm : ivl_lpm_t)
    (left : Nat) :
    ∀ (i : Nat) (acc : List vhdl_expr),
      ((ufunc_loop env scope lpm left i acc).isSome = true
        ↔ ∀ j, i ≤ j → j < i + left →
            (env.nexus_to_var_ref scope (lpm.ivl_lpm_data j)).isSome = true) := by
  induction left with
  | zero => intro i acc; simp [ufunc_loop]; intro j h1 h2; omega
  | succ m ih =>
    intro i acc
    cases hi : env.nexus_to_var_ref scope (lpm.ivl_lpm_data i) with
    | none =>
      simp only [ufunc_loop, hi, Option.isSome_none, Bool.false_eq_true, false_iff]
      intro hall
      have := hall i (Nat.le_refl i) (by omega)
      simp [hi] at this
    | some e =>
      simp only [ufunc_loop, hi]
      rw [ih]
      constructor
      · intro hall j h1 h2
        rcases Nat.eq_or_lt_of_le h1 with h3 | h3
        · subst h3
          simp [hi]
        · exact hall j h3 (by omega)
      · intro hall j h1 h2
        exact hall j (by omega) (by omega)

/-- C1: a multiply device whose two data inputs resolve to `e0` and `e1` lowers
to the call `Resize(e0 * e1, w)`: function name `Resize`, exactly two arguments,
first the multiplication over the operand list `[e0, e1]`, then the integer
constant `w`.  An add or sub device lowers to the bare binary expression over
`[e0, e1]`, whose root is no call; a `Resize` call occurs in it only inside an
operand, so none occurs when the operands carry none. -/
theorem lpm_to_expr_mult_resize (env : vhdl_support) (scope : vhdl_scope) (lpm : ivl_lpm_t)
    (e0 e1 : vhdl_var_ref)
    (h0 : env.nexus_to_var_ref scope (lpm.ivl_lpm_data 0) = some e0)
    (h1 : env.nexus_to_var_ref scope (lpm.ivl_lpm_data 1) = some e1) :
    (lpm.ivl_lpm_type = IVL_LPM_MULT →
      lpm_to_expr env scope lpm
        = (Except.ok (some (vhdl_expr.fcall "Resize"
            (some (vhdl_type.nsigned lpm.ivl_lpm_width))
            [vhdl_expr.binop_expr VHDL_BINOP_MULT
              (some (vhdl_type.type_for lpm.ivl_lpm_width (lpm.ivl_lpm_signed != 0)))
              [vhdl_expr.var_ref e0, vhdl_expr.var_ref e1],
             vhdl_expr.const_int (lpm.ivl_lpm_width : Int)])), []))
    ∧ (lpm.ivl_lpm_type = IVL_LPM_ADD →
      lpm_to_expr env scope lpm
        = (Except.ok (some (vhdl_expr.binop_expr VHDL_BINOP_ADD
            (some (vhdl_type.type_for lpm.ivl_lpm_width (lpm.ivl_lpm_signed != 0)))
            [vhdl_expr.var_ref e0, vhdl_expr.var_ref e1])), []))
    ∧ (lpm.ivl_lpm_type = IVL_LPM_SUB →
      lpm_to_expr env scope lpm
        = (Except.ok (some (vhdl_expr.binop_expr VHDL_BINOP_SUB
            (some (vhdl_type.type_for lpm.ivl_lpm_width (lpm.ivl_lpm_signed != 0)))
            [vhdl_expr.var_ref e0, vhdl_expr.var_ref e1])), []))
    ∧ (∀ op ty, (vhdl_expr.binop_expr op ty
          [vhdl_expr.var_ref e0, vhdl_expr.var_ref e1]).calls "Resize"
        = (e0.calls "Resize" || e1.calls "Resize"))
    ∧ (lpm.ivl_lpm_type = IVL_LPM_ADD ∨ lpm.ivl_lpm_type = IVL_LPM_SUB →
        e0.calls "Resize" = false → e1.calls "Resize" = false →
        ∃ e, lpm_to_expr env scope lpm = (Except.ok (some e), [])
          ∧ e.calls "Resize" = false) := by
  have hcalls : ∀ op ty, (vhdl_expr.binop_expr op ty
      [vhdl_expr.var_ref e0, vhdl_expr.var_ref e1]).calls "Resize"
        = (e0.calls "Resize" || e1.calls "Resize") := by
    intro op ty
    simp [vhdl_expr.calls, calls_list]
  have hadd : lpm.ivl_lpm_type = IVL_LPM_ADD → lpm_to_expr env scope lpm
        = (Except.ok (some (vhdl_expr.binop_expr VHDL_BINOP_ADD
            (some (vhdl_type.type_for lpm.ivl_lpm_width (lpm.ivl_lpm_signed != 0)))
            [vhdl_expr.var_ref e0, vhdl_expr.var_ref e1])), []) := by
    intro hk
    simp [lpm_to_expr, hk, binop_lpm_to_expr, h0, h1]
  have hsub : lpm.ivl_lpm_type = IVL_LPM_SUB → lpm_to_expr env scope lpm
        = (Except.ok (some (vhdl_expr.binop_expr VHDL_BINOP_SUB
            (some (vhdl_type.type_for lpm.ivl_lpm_width (lpm.ivl_lpm_signed != 0)))
            [vhdl_expr.var_ref e0, vhdl_expr.var_ref e1])), []) := by
    intro hk
    simp [lpm_to_expr, hk, binop_lpm_to_expr, h0, h1]
  refine ⟨fun hk => ?_, hadd, hsub, hcalls, fun hk a b => ?_⟩
  · simp [lpm_to_expr, hk, binop_lpm_to_expr, h0, h1]
  · rcases hk with hk | hk
    · exact ⟨_, hadd hk, by rw [hcalls, a, b]; rfl⟩
    · exact ⟨_, hsub hk, by rw [hcalls, a, b]; rfl⟩

/-- C1 on the sample multiplier, `Resize(a * b, 8)`, and on the sample adder,
whose lowering holds no `Resize` call. -/
theorem lpm_to_expr_mult_resize_witness :
    sample_support.nexus_to_var_ref sample_scope ((sample_lpm IVL_LPM_MULT).ivl_lpm_data 0)
        = some ref_a
    ∧ sample_support.nexus_to_var_ref sample_scope ((sample_lpm IVL_LPM_MULT).ivl_lpm_data 1)
        = some ref_b
    ∧ lpm_to_expr sample_support sample_scope (sample_lpm IVL_LPM_MULT)
        = (Except.ok (some (vhdl_expr.fcall "Resize" (some (vhdl_type.nsigned 8))
            [vhdl_expr.binop_expr VHDL_BINOP_MULT (some (vhdl_type.nunsigned 8))
              [vhdl_expr.var_ref ref_a, vhdl_expr.var_ref ref_b],
             vhdl_expr.const_int 8])), [])
    ∧ (∃ e, lpm_to_expr sample_support sample_scope (sample_lpm IVL_LPM_ADD)
          = (Except.ok (some e), [])
        ∧ e.calls "Resize" = false) :=
  ⟨rfl, rfl,
   (lpm_to_expr_mult_resize sample_support sample_scope (sample_lpm IVL_LPM_MULT)
      ref_a ref_b rfl rfl).1 rfl,
   (lpm_to_expr_mult_resize sample_support sample_scope (sample_lpm IVL_LPM_ADD)
      ref_a ref_b rfl rfl).2.2.2.2 (Or.inl rfl) (by decide) (by decide)⟩

/-- C2: an add device of width `w` and signed flag `s` with data inputs resolving
to `a` and `b` (references carrying no `Resize` call), an output nexus that does
not resolve and an output name not yet declared: `draw_lpm` returns 0, the scope
gains exactly the declaration of `LPM<basename>_Out` with type `type_for(w, s)`
(unsigned 8 bits for `w = 8`, `s = 0`), the statement list gains exactly the
assignment of `a + b` to a reference to that signal, and the right side holds
no `Resize` call. -/
theorem draw_lpm_add (env : vhdl_support) (st : draw_state) (lpm : ivl_lpm_t)
    (a b : vhdl_var_ref)
    (hk : lpm.ivl_lpm_type = IVL_LPM_ADD)
    (ha : env.nexus_to_var_ref st.arch.scope (lpm.ivl_lpm_data 0) = some a)
    (hb : env.nexus_to_var_ref st.arch.scope (lpm.ivl_lpm_data 1) = some b)
    (hq : env.nexus_to_var_ref st.arch.scope (lpm.ivl_lpm_q 0) = none)
    (hn : st.arch.scope.have_declared ("LPM" ++ lpm.ivl_lpm_basename ++ "_Out") = false)
    (hra : a.calls "Resize" = false) (hrb : b.calls "Resize" = false) :
    draw_lpm env st lpm
      = Except.ok (0,
          { arch :=
              { scope :=
                  { decls := st.arch.scope.decls ++
                      [{ name := "LPM" ++ lpm.ivl_lpm_basename ++ "_Out"
                         type := vhdl_type.type_for lpm.ivl_lpm_width
                           (lpm.ivl_lpm_signed != 0) }] }
                stmts := st.arch.stmts ++
                  [{ lhs := vhdl_var_ref.mk ("LPM" ++ lpm.ivl_lpm_basename ++ "_Out")
                       (some (vhdl_type.type_for lpm.ivl_lpm_width
                         (lpm.ivl_lpm_signed != 0))) none 0
                     rhs := vhdl_expr.binop_expr VHDL_BINOP_ADD
                       (some (vhdl_type.type_for lpm.ivl_lpm_width
                         (lpm.ivl_lpm_signed != 0)))
                       [vhdl_expr.var_ref a, vhdl_expr.var_ref b] }] }
            errors := st.errors })
    ∧ (vhdl_expr.binop_expr VHDL_BINOP_ADD
        (some (vhdl_type.type_for lpm.ivl_lpm_width (lpm.ivl_lpm_signed != 0)))
        [vhdl_expr.var_ref a, vhdl_expr.var_ref b]).calls "Resize" = false
    ∧ (lpm.ivl_lpm_width = 8 → lpm.ivl_lpm_signed = 0 →
        vhdl_type.type_for lpm.ivl_lpm_width (lpm.ivl_lpm_signed != 0)
          = vhdl_type.nunsigned 8) := by
  refine ⟨?_, ?_, ?_⟩
  · have hne : lpm.ivl_lpm_type ≠ IVL_LPM_PART_PV := by rw [hk]; decide
    simp [draw_lpm, lpm_to_expr, hk, binop_lpm_to_expr, ha, hb, lpm_output, hq,
      lpm_output_name, hn, vhdl_scope.add_decl, vhdl_arch.add_stmt, vhdl_var_ref.new]
  · simp [vhdl_expr.calls, calls_list, hra, hrb]
  · intro hw hs
    simp [hw, hs, vhdl_type.type_for]

/-- C2 on the sample adder: one declaration `LPMu1_Out : unsigned(8)` and one
assignment `LPMu1_Out <= a + b`. -/
theorem draw_lpm_add_witness :
    draw_lpm sample_support { arch := { scope := sample_scope, stmts := [] }, errors := [] }
        (sample_lpm IVL_LPM_ADD)
      = Except.ok (0,
          { arch :=
              { scope := { decls := sample_scope.decls ++
                  [{ name := "LPMu1_Out", type := vhdl_type.nunsigned 8 }] }
                stmts :=
                  [{ lhs := vhdl_var_ref.mk "LPMu1_Out" (some (vhdl_type.nunsigned 8)) none 0
                     rhs := vhdl_expr.binop_expr VHDL_BINOP_ADD (some (vhdl_type.nunsigned 8))
                       [vhdl_expr.var_ref ref_a, vhdl_expr.var_ref ref_b] }] }
            errors := [] }) :=
  (draw_lpm_add sample_support { arch := { scope := sample_scope, stmts := [] }, errors := [] }
    (sample_lpm IVL_LPM_ADD) ref_a ref_b rfl rfl rfl rfl (by decide) (by decide)
    (by decide)).1

/-- C3: a concatenation device with `k` inputs (`k - 1` representable in the
`int` loop variable), input `i` resolving to `r i` for every `i < k`, lowers to
the concatenation whose operand list has length `k`, has `r (k-1-j)` at position
`j`, and is the reverse of `r 0, ..., r (k-1)`. -/
theorem concat_lpm_to_expr_reversed (env : vhdl_support) (scope : vhdl_scope)
    (lpm : ivl_lpm_t) (r : Nat → vhdl_var_ref)
    (hk : lpm.ivl_lpm_selects ≤ 2147483648)
    (hres : ∀ i, i < lpm.ivl_lpm_selects →
      env.nexus_to_var_ref scope (lpm.ivl_lpm_data i) = some (r i)) :
    ∃ operands : List vhdl_expr,
      concat_lpm_to_expr env scope lpm
        = some (vhdl_expr.binop_expr VHDL_BINOP_CONCAT
            (some (vhdl_type.type_for lpm.ivl_lpm_width (lpm.ivl_lpm_signed != 0))) operands)
      ∧ operands.length = lpm.ivl_lpm_selects
      ∧ (∀ j, j < lpm.ivl_lpm_selects →
          operands[j]? = some (vhdl_expr.var_ref (r (lpm.ivl_lpm_selects - 1 - j))))
      ∧ operands
          = ((List.range lpm.ivl_lpm_selects).map (fun i => vhdl_expr.var_ref (r i))).reverse := by
  refine ⟨((List.range lpm.ivl_lpm_selects).map (fun i => vhdl_expr.var_ref (r i))).reverse,
    ?_, ?_, ?_, rfl⟩
  · have hloop := concat_loop_resolved env scope lpm r lpm.ivl_lpm_selects [] hres
    unfold concat_lpm_to_expr
    dsimp only
    rw [concat_iterations _ hk, hloop]
    rfl
  · simp
  · intro j hj
    rw [List.getElem?_reverse (by simpa using hj), List.length_map, List.length_range,
      List.getElem?_map, List.getElem?_range (by omega)]
    rfl

/-- C3 on the sample concatenation of three inputs: operands `c, b, a`. -/
theorem concat_lpm_to_expr_reversed_witness :
    ∃ operands : List vhdl_expr,
      concat_lpm_to_expr sample_support sample_scope (sample_lpm IVL_LPM_CONCAT)
        = some (vhdl_expr.binop_expr VHDL_BINOP_CONCAT (some (vhdl_type.nunsigned 8)) operands)
      ∧ operands.length = 3
      ∧ (∀ j, j < 3 → operands[j]? = some (vhdl_expr.var_ref
            ((fun i => if i = 0 then ref_a else if i = 1 then ref_b else ref_c) (3 - 1 - j))))
      ∧ operands
          = ((List.range 3).map (fun i => vhdl_expr.var_ref
              ((fun i => if i = 0 then ref_a else if i = 1 then ref_b else ref_c) i))).reverse :=
  concat_lpm_to_expr_reversed sample_support sample_scope (sample_lpm IVL_LPM_CONCAT)
    (fun i => if i = 0 then ref_a else if i = 1 then ref_b else ref_c)
    (by simp [sample_lpm])
    (by
      intro i hi
      have h3 : i < 3 := hi
      interval_cases i <;> rfl)

/-- C4: a reduction device whose data input resolves to `r` lowers, for
`RE_NAND` and `RE_NOR`, to `NOT(Reduce_AND(r))` and `NOT(Reduce_OR(r))`, and for
`RE_AND`, `RE_OR`, `RE_XOR`, `RE_XNOR` to the bare one-argument call
`Reduce_AND(r)`, `Reduce_OR(r)`, `Reduce_XOR(r)`, `Reduce_XNOR(r)`; the root of
the result is a negation exactly for `RE_NAND` and `RE_NOR`. -/
theorem lpm_to_expr_reduction (env : vhdl_support) (scope : vhdl_scope) (lpm : ivl_lpm_t)
    (r : vhdl_var_ref)
    (h0 : env.nexus_to_var_ref scope (lpm.ivl_lpm_data 0) = some r) :
    (lpm.ivl_lpm_type = IVL_LPM_RE_NAND →
      lpm_to_expr env scope lpm
        = (Except.ok (some (vhdl_expr.unaryop_expr VHDL_UNARYOP_NOT
            (vhdl_expr.fcall "Reduce_AND" (some vhdl_type.std_logic) [vhdl_expr.var_ref r])
            (some vhdl_type.std_logic))), []))
    ∧ (lpm.ivl_lpm_type = IVL_LPM_RE_NOR →
      lpm_to_expr env scope lpm
        = (Except.ok (some (vhdl_expr.unaryop_expr VHDL_UNARYOP_NOT
            (vhdl_expr.fcall "Reduce_OR" (some vhdl_type.std_logic) [vhdl_expr.var_ref r])
            (some vhdl_type.std_logic))), []))
    ∧ (lpm.ivl_lpm_type = IVL_LPM_RE_AND →
      lpm_to_expr env scope lpm
        = (Except.ok (some (vhdl_expr.fcall "Reduce_AND" (some vhdl_type.std_logic)
            [vhdl_expr.var_ref r])), []))
    ∧ (lpm.ivl_lpm_type = IVL_LPM_RE_OR →
      lpm_to_expr env scope lpm
        = (Except.ok (some (vhdl_expr.fcall "Reduce_OR" (some vhdl_type.std_logic)
            [vhdl_expr.var_ref r])), []))
    ∧ (lpm.ivl_lpm_type = IVL_LPM_RE_XOR →
      lpm_to_expr env scope lpm
        = (Except.ok (some (vhdl_expr.fcall "Reduce_XOR" (some vhdl_type.std_logic)
            [vhdl_expr.var_ref r])), []))
    ∧ (lpm.ivl_lpm_type = IVL_LPM_RE_XNOR →
      lpm_to_expr env scope lpm
        = (Except.ok (some (vhdl_expr.fcall "Reduce_XNOR" (some vhdl_type.std_logic)
            [vhdl_expr.var_ref r])), []))
    ∧ (lpm.ivl_lpm_type = IVL_LPM_RE_AND ∨ lpm.ivl_lpm_type = IVL_LPM_RE_NAND
        ∨ lpm.ivl_lpm_type = IVL_LPM_RE_NOR ∨ lpm.ivl_lpm_type = IVL_LPM_RE_OR
        ∨ lpm.ivl_lpm_type = IVL_LPM_RE_XOR ∨ lpm.ivl_lpm_type = IVL_LPM_RE_XNOR →
      ∃ e, lpm_to_expr env scope lpm = (Except.ok (some e), [])
        ∧ (e.is_negation = true ↔
            (lpm.ivl_lpm_type = IVL_LPM_RE_NAND ∨ lpm.ivl_lpm_type = IVL_LPM_RE_NOR))) := by
  refine ⟨?_, ?_, ?_, ?_, ?_, ?_, ?_⟩
  · intro hk; simp [lpm_to_expr, hk, reduction_lpm_to_expr, h0]
  · intro hk; simp [lpm_to_expr, hk, reduction_lpm_to_expr, h0]
  · intro hk; simp [lpm_to_expr, hk, reduction_lpm_to_expr, h0]
  · intro hk; simp [lpm_to_expr, hk, reduction_lpm_to_expr, h0]
  · intro hk; simp [lpm_to_expr, hk, reduction_lpm_to_expr, h0]
  · intro hk; simp [lpm_to_expr, hk, reduction_lpm_to_expr, h0]
  · intro hk
    rcases hk with hk | hk | hk | hk | hk | hk <;>
      simp [lpm_to_expr, hk, reduction_lpm_to_expr, h0, vhdl_expr.is_negation]

/-- C4 on the sample devices: `NOT(Reduce_AND(a))` for NAND, `Reduce_XNOR(a)` for
XNOR. -/
theorem lpm_to_expr_reduction_witness :
    sample_support.nexus_to_var_ref sample_scope ((sample_lpm IVL_LPM_RE_NAND).ivl_lpm_data 0)
        = some ref_a
    ∧ lpm_to_expr sample_support sample_scope (sample_lpm IVL_LPM_RE_NAND)
        = (Except.ok (some (vhdl_expr.unaryop_expr VHDL_UNARYOP_NOT
            (vhdl_expr.fcall "Reduce_AND" (some vhdl_type.std_logic) [vhdl_expr.var_ref ref_a])
            (some vhdl_type.std_logic))), [])
    ∧ lpm_to_expr sample_support sample_scope (sample_lpm IVL_LPM_RE_XNOR)
        = (Except.ok (some (vhdl_expr.fcall "Reduce_XNOR" (some vhdl_type.std_logic)
            [vhdl_expr.var_ref ref_a])), []) :=
  ⟨rfl,
   (lpm_to_expr_reduction sample_support sample_scope (sample_lpm IVL_LPM_RE_NAND)
      ref_a rfl).1 rfl,
   (lpm_to_expr_reduction sample_support sample_scope (sample_lpm IVL_LPM_RE_XNOR)
      ref_a rfl).2.2.2.2.2.1 rfl⟩

/-- C5: a part-select-VP device with no second data port, constant base `b` and
width `w`, whose data input 0 resolves to `v` (the cast to integer leaving the
integer constant `b` as it is): the lowering returns `v` with its slice set to
base = integer constant `b` and extent = `w - 1` computed in `unsigned`
arithmetic; for `1 <= w <= 2^32` the extent is the mathematical `w - 1`, so the
slice runs from bit `b` to bit `b + w - 1` and holds `w` bits. -/
theorem part_select_vp_constant_base (env : vhdl_support) (scope : vhdl_scope)
    (lpm : ivl_lpm_t) (v : vhdl_var_ref)
    (hk : lpm.ivl_lpm_type = IVL_LPM_PART_VP)
    (h1 : lpm.ivl_lpm_data 1 = none)
    (h0 : env.nexus_to_var_ref scope (lpm.ivl_lpm_data 0) = some v)
    (hcast : env.cast (vhdl_expr.const_int (lpm.ivl_lpm_base : Int)) vhdl_type.integer
      = some (vhdl_expr.const_int (lpm.ivl_lpm_base : Int))) :
    lpm_to_expr env scope lpm
      = (Except.ok (some (vhdl_expr.var_ref
          (env.set_slice v (vhdl_expr.const_int (lpm.ivl_lpm_base : Int))
            (unsigned_sub_one lpm.ivl_lpm_width)))), [])
    ∧ (1 ≤ lpm.ivl_lpm_width → lpm.ivl_lpm_width ≤ 4294967296 →
        unsigned_sub_one lpm.ivl_lpm_width = lpm.ivl_lpm_width - 1
        ∧ lpm.ivl_lpm_base + unsigned_sub_one lpm.ivl_lpm_width
            = lpm.ivl_lpm_base + lpm.ivl_lpm_width - 1
        ∧ unsigned_sub_one lpm.ivl_lpm_width + 1 = lpm.ivl_lpm_width) := by
  refine ⟨?_, ?_⟩
  · simp [lpm_to_expr, hk, part_select_vp_lpm_to_expr, h0, part_select_base, h1, hcast]
  · intro hw1 hw2
    unfold unsigned_sub_one
    omega

/-- C5 on the sample part select (base 2, width 8) with the dynamic base port
removed: the slice of `a` at integer constant 2 with extent 7, bits 2 to 9. -/
theorem part_select_vp_constant_base_witness :
    lpm_to_expr sample_support sample_scope
        { sample_lpm IVL_LPM_PART_VP with
          ivl_lpm_data := fun i => if i = 0 then some 0 else none }
      = (Except.ok (some (vhdl_expr.var_ref
          (vhdl_var_ref.mk "a" (some (vhdl_type.nunsigned 8))
            (some (vhdl_expr.const_int 2)) 7))), [])
    ∧ (2 : Nat) + 7 = 2 + 8 - 1 :=
  ⟨(part_select_vp_constant_base sample_support sample_scope
      { sample_lpm IVL_LPM_PART_VP with
        ivl_lpm_data := fun i => if i = 0 then some 0 else none }
      ref_a rfl rfl rfl rfl).1, rfl⟩

/-- C7 (as stated, refuted): the sample AND-reduction device has declared width 8
and is unsigned, its input resolves, and `lpm_to_expr` returns the call
`Reduce_AND(a)` typed `std_logic`, a single bit: its type does not have width 8,
and is not `type_for(8, false)`. -/
theorem lpm_to_expr_type_counterexample :
    (sample_lpm IVL_LPM_RE_AND).ivl_lpm_type.handled = true
    ∧ (sample_lpm IVL_LPM_RE_AND).ivl_lpm_width = 8
    ∧ sample_support.nexus_to_var_ref sample_scope
        ((sample_lpm IVL_LPM_RE_AND).ivl_lpm_data 0) = some ref_a
    ∧ lpm_to_expr sample_support sample_scope (sample_lpm IVL_LPM_RE_AND)
        = (Except.ok (some (vhdl_expr.fcall "Reduce_AND" (some vhdl_type.std_logic)
            [vhdl_expr.var_ref ref_a])), [])
    ∧ (vhdl_expr.fcall "Reduce_AND" (some vhdl_type.std_logic)
        [vhdl_expr.var_ref ref_a]).get_type = some vhdl_type.std_logic
    ∧ ¬ vhdl_type.std_logic.has_geometry 8 false
    ∧ vhdl_type.std_logic ≠ vhdl_type.type_for 8 false := by
  refine ⟨rfl, rfl, rfl, rfl, rfl, ?_, ?_⟩
  · decide
  · decide

/-- C7 (amended): for an add, sub or concatenation device whose operands resolve,
the expression returned by `lpm_to_expr` is typed `type_for(w, s)`, of the
declared width `w` and signedness `s`.  For the six reductions the returned
expression is typed `std_logic`, and for a user function the returned call
carries no type. -/
theorem lpm_to_expr_result_type (env : vhdl_support) (scope : vhdl_scope) (lpm : ivl_lpm_t)
    (r : Nat → vhdl_var_ref) :
    (lpm.ivl_lpm_type = IVL_LPM_ADD ∨ lpm.ivl_lpm_type = IVL_LPM_SUB →
      env.nexus_to_var_ref scope (lpm.ivl_lpm_data 0) = some (r 0) →
      env.nexus_to_var_ref scope (lpm.ivl_lpm_data 1) = some (r 1) →
      ∃ e, lpm_to_expr env scope lpm = (Except.ok (some e), [])
        ∧ e.get_type
            = some (vhdl_type.type_for lpm.ivl_lpm_width (lpm.ivl_lpm_signed != 0))
        ∧ (vhdl_type.type_for lpm.ivl_lpm_width (lpm.ivl_lpm_signed != 0)).has_geometry
            lpm.ivl_lpm_width (lpm.ivl_lpm_signed != 0))
    ∧ (lpm.ivl_lpm_type = IVL_LPM_CONCAT →
      lpm.ivl_lpm_selects ≤ 2147483648 →
      (∀ i, i < lpm.ivl_lpm_selects →
        env.nexus_to_var_ref scope (lpm.ivl_lpm_data i) = some (r i)) →
      ∃ e, lpm_to_expr env scope lpm = (Except.ok (some e), [])
        ∧ e.get_type
            = some (vhdl_type.type_for lpm.ivl_lpm_width (lpm.ivl_lpm_signed != 0))
        ∧ (vhdl_type.type_for lpm.ivl_lpm_width (lpm.ivl_lpm_signed != 0)).has_geometry
            lpm.ivl_lpm_width (lpm.ivl_lpm_signed != 0))
    ∧ (lpm.ivl_lpm_type = IVL_LPM_RE_AND ∨ lpm.ivl_lpm_type = IVL_LPM_RE_NAND
        ∨ lpm.ivl_lpm_type = IVL_LPM_RE_NOR ∨ lpm.ivl_lpm_type = IVL_LPM_RE_OR
        ∨ lpm.ivl_lpm_type = IVL_LPM_RE_XOR ∨ lpm.ivl_lpm_type = IVL_LPM_RE_XNOR →
      env.nexus_to_var_ref scope (lpm.ivl_lpm_data 0) = some (r 0) →
      ∃ e, lpm_to_expr env scope lpm = (Except.ok (some e), [])
        ∧ e.get_type = some vhdl_type.std_logic)
    ∧ (lpm.ivl_lpm_type = IVL_LPM_UFUNC →
      (∀ i, i < lpm.ivl_lpm_size →
        env.nexus_to_var_ref scope (lpm.ivl_lpm_data i) = some (r i)) →
      ∃ e, lpm_to_expr env scope lpm = (Except.ok (some e), [])
        ∧ e.get_type = none) := by
  refine ⟨?_, ?_, ?_, ?_⟩
  · intro hk h0 h1
    rcases hk with hk | hk
    · simp only [lpm_to_expr, hk, binop_lpm_to_expr, h0, h1]
      exact ⟨_, rfl, rfl, type_for_has_geometry _ _⟩
    · simp only [lpm_to_expr, hk, binop_lpm_to_expr, h0, h1]
      exact ⟨_, rfl, rfl, type_for_has_geometry _ _⟩
  · intro hk hsel hres
    have hloop := concat_loop_resolved env scope lpm r lpm.ivl_lpm_selects [] hres
    refine ⟨vhdl_expr.binop_expr VHDL_BINOP_CONCAT
      (some (vhdl_type.type_for lpm.ivl_lpm_width (lpm.ivl_lpm_signed != 0)))
      ((List.range lpm.ivl_lpm_selects).map (fun i => vhdl_expr.var_ref (r i))).reverse,
      ?_, rfl, type_for_has_geometry _ _⟩
    have hc : concat_lpm_to_expr env scope lpm
        = some (vhdl_expr.binop_expr VHDL_BINOP_CONCAT
            (some (vhdl_type.type_for lpm.ivl_lpm_width (lpm.ivl_lpm_signed != 0)))
            ((List.range lpm.ivl_lpm_selects).map
              (fun i => vhdl_expr.var_ref (r i))).reverse) := by
      unfold concat_lpm_to_expr
      dsimp only
      rw [concat_iterations _ hsel, hloop]
      rfl
    simp only [lpm_to_expr, hk, hc]
  · intro hk h0
    rcases hk with hk | hk | hk | hk | hk | hk <;>
      simp only [lpm_to_expr, hk, reduction_lpm_to_expr, h0] <;>
      exact ⟨_, rfl, rfl⟩
  · intro hk hres
    have hloop := ufunc_loop_resolved env scope lpm r lpm.ivl_lpm_size 0 []
      (fun j _ h2 => hres j (by omega))
    exact ⟨vhdl_expr.fcall lpm.ivl_lpm_basename none
        ((List.range' 0 lpm.ivl_lpm_size).map (fun j => vhdl_expr.var_ref (r j))),
      by simp [lpm_to_expr, hk, ufunc_lpm_to_expr, hloop], rfl⟩

/-- C7 (amended) on the sample adder: `a + b` typed unsigned, 8 bits. -/
theorem lpm_to_expr_result_type_witness :
    ∃ e, lpm_to_expr sample_support sample_scope (sample_lpm IVL_LPM_ADD)
        = (Except.ok (some e), [])
      ∧ e.get_type = some (vhdl_type.nunsigned 8)
      ∧ (vhdl_type.nunsigned 8).has_geometry 8 false :=
  (lpm_to_expr_result_type sample_support sample_scope (sample_lpm IVL_LPM_ADD)
    (fun i => if i = 0 then ref_a else ref_b)).1 (Or.inl rfl) rfl rfl

/-- C8 (the code at the failing input): for the sample unsigned 8-bit multiplier
`binop_lpm_to_expr` returns the `Resize` call typed signed, 8 bits, while the
multiplication inside it is typed `type_for(8, false)`, unsigned 8 bits: the
root is not typed `type_for(w, s)` and is not unsigned. -/
theorem binop_lpm_to_expr_mult_root_signed :
    (sample_lpm IVL_LPM_MULT).ivl_lpm_signed = 0
    ∧ binop_lpm_to_expr sample_support sample_scope (sample_lpm IVL_LPM_MULT) VHDL_BINOP_MULT
        = some (vhdl_expr.fcall "Resize" (some (vhdl_type.nsigned 8))
            [vhdl_expr.binop_expr VHDL_BINOP_MULT (some (vhdl_type.nunsigned 8))
              [vhdl_expr.var_ref ref_a, vhdl_expr.var_ref ref_b],
             vhdl_expr.const_int 8])
    ∧ (vhdl_expr.fcall "Resize" (some (vhdl_type.nsigned 8))
            [vhdl_expr.binop_expr VHDL_BINOP_MULT (some (vhdl_type.nunsigned 8))
              [vhdl_expr.var_ref ref_a, vhdl_expr.var_ref ref_b],
             vhdl_expr.const_int 8]).get_type = some (vhdl_type.nsigned 8)
    ∧ vhdl_type.nsigned 8
        ≠ vhdl_type.type_for (sample_lpm IVL_LPM_MULT).ivl_lpm_width
            ((sample_lpm IVL_LPM_MULT).ivl_lpm_signed != 0)
    ∧ ¬ (vhdl_type.nsigned 8).has_geometry 8 false := by
  refine ⟨rfl, rfl, rfl, ?_, ?_⟩
  · decide
  · decide

/-- C9: a device whose kind tag `t` is none of the fifteen handled tags:
`lpm_to_expr` returns failure and reports one `Unsupported LPM type` error
carrying `t`; `draw_lpm` returns 0, leaves the architecture as it was and adds
that one error; and in a run over a list of devices the architecture produced
is the one produced without the unsupported device. -/
theorem draw_lpm_unsupported (env : vhdl_support) (st : draw_state) (lpm : ivl_lpm_t)
    (h : lpm.ivl_lpm_type.handled = false) :
    lpm_to_expr env st.arch.scope lpm
      = (Except.ok none, [{ fmt := "Unsupported LPM type: %d", arg := lpm.ivl_lpm_type }])
    ∧ draw_lpm env st lpm
      = Except.ok (0, { arch := st.arch
                        errors := st.errors ++
                          [{ fmt := "Unsupported LPM type: %d", arg := lpm.ivl_lpm_type }] })
    ∧ (∀ (st0 : draw_state) (before after : List ivl_lpm_t),
        (draw_lpms env st0 (before ++ lpm :: after)).map (fun s => s.arch)
          = (draw_lpms env st0 (before ++ after)).map (fun s => s.arch)) := by
  have hdraw : ∀ s : draw_state, draw_lpm env s lpm
      = Except.ok (0, { arch := s.arch
                        errors := s.errors ++
                          [{ fmt := "Unsupported LPM type: %d", arg := lpm.ivl_lpm_type }] }) := by
    intro s
    simp [draw_lpm, lpm_to_expr_default env s.arch.scope lpm h, unsupported_lpm_type]
  refine ⟨?_, hdraw st, ?_⟩
  · rw [lpm_to_expr_default env st.arch.scope lpm h]
    rfl
  · intro st0 before after
    rw [draw_lpms_append, draw_lpms_append]
    cases draw_lpms env st0 before with
    | error f => rfl
    | ok st1 =>
      simp only [draw_lpms, hdraw st1]
      exact draw_lpms_arch_only env after _ _ rfl

/-- C9 on a sample shifter between the sample adder and a sample subtractor: the
shifter alone adds one error and nothing else, and the run over the three
devices builds the architecture of the run over the other two. -/
theorem draw_lpm_unsupported_witness :
    draw_lpm sample_support sample_state (sample_lpm IVL_LPM_SHIFTL)
      = Except.ok (0, { arch := sample_state.arch
                        errors := [{ fmt := "Unsupported LPM type: %d"
                                     arg := IVL_LPM_SHIFTL }] })
    ∧ (draw_lpms sample_support sample_state
          ([sample_lpm IVL_LPM_ADD] ++ sample_lpm IVL_LPM_SHIFTL :: [sample_lpm IVL_LPM_SUB])).map
          (fun s => s.arch)
        = (draw_lpms sample_support sample_state
            ([sample_lpm IVL_LPM_ADD] ++ [sample_lpm IVL_LPM_SUB])).map (fun s => s.arch) :=
  ⟨(draw_lpm_unsupported sample_support sample_state (sample_lpm IVL_LPM_SHIFTL) rfl).2.1,
   (draw_lpm_unsupported sample_support sample_state (sample_lpm IVL_LPM_SHIFTL) rfl).2.2
     sample_state [sample_lpm IVL_LPM_ADD] [sample_lpm IVL_LPM_SUB]⟩

/-- C10 (as stated, refuted): the sample multiplexer is 8 bits wide, its four
data inputs and its select resolve, and `draw_lpm` emits no concurrent
assignment for it: the statement list stays empty and one `Unsupported LPM
type` error carrying the multiplexer tag is reported. -/
theorem draw_lpm_mux_counterexample :
    sample_mux.ivl_lpm_type = IVL_LPM_MUX
    ∧ sample_mux.ivl_lpm_width = 8
    ∧ sample_support.nexus_to_var_ref sample_scope (sample_mux.ivl_lpm_data 0) = some ref_a
    ∧ sample_support.nexus_to_var_ref sample_scope (sample_mux.ivl_lpm_data 1) = some ref_b
    ∧ sample_support.nexus_to_var_ref sample_scope (sample_mux.ivl_lpm_data 2) = some ref_c
    ∧ sample_support.nexus_to_var_ref sample_scope (sample_mux.ivl_lpm_data 3)
        = some (vhdl_var_ref.new "d" (some (vhdl_type.nunsigned 8)))
    ∧ sample_support.nexus_to_var_ref sample_scope sample_mux.ivl_lpm_select
        = some (vhdl_var_ref.new "sel" (some (vhdl_type.nunsigned 2)))
    ∧ draw_lpm sample_support sample_state sample_mux
        = Except.ok (0, { arch := { scope := sample_scope, stmts := [] }
                          errors := [{ fmt := "Unsupported LPM type: %d"
                                       arg := IVL_LPM_MUX }] }) :=
  ⟨rfl, rfl, rfl, rfl, rfl, rfl, rfl, rfl⟩

/-- C10 (amended): for a multiplexer device `lpm_to_expr` has no case: it reports
one `Unsupported LPM type` error carrying the multiplexer tag and returns
failure, and `draw_lpm` returns 0 with the statement list and the scope
unchanged, so no concurrent assignment is emitted. -/
theorem draw_lpm_mux (env : vhdl_support) (st : draw_state) (lpm : ivl_lpm_t)
    (hk : lpm.ivl_lpm_type = IVL_LPM_MUX) :
    lpm_to_expr env st.arch.scope lpm
      = (Except.ok none, [{ fmt := "Unsupported LPM type: %d", arg := IVL_LPM_MUX }])
    ∧ draw_lpm env st lpm
      = Except.ok (0, { arch := st.arch
                        errors := st.errors ++
                          [{ fmt := "Unsupported LPM type: %d", arg := IVL_LPM_MUX }] }) := by
  have hl : lpm_to_expr env st.arch.scope lpm
      = (Except.ok none, [{ fmt := "Unsupported LPM type: %d", arg := IVL_LPM_MUX }]) := by
    simp [lpm_to_expr, hk, unsupported_lpm_type]
  exact ⟨hl, by simp [draw_lpm, hl]⟩

/-- C10 (amended) on the sample multiplexer. -/
theorem draw_lpm_mux_witness :
    sample_mux.ivl_lpm_type = IVL_LPM_MUX
    ∧ draw_lpm sample_support sample_state sample_mux
      = Except.ok (0, { arch := sample_state.arch
                        errors := sample_state.errors ++
                          [{ fmt := "Unsupported LPM type: %d", arg := IVL_LPM_MUX }] }) :=
  ⟨rfl, (draw_lpm_mux sample_support sample_state sample_mux rfl).2⟩

/-- C11: an array-read device whose array signal has not been seen before lowers
to failure.  When the signal has been seen, its declaration `adecl` is in the
scope under the renamed name and the index operand resolves to `i`, the
lowering succeeds with the reference to the renamed signal, typed with a copy
of the type of `adecl`, indexed by `i`. -/
theorem array_lpm_to_expr_seen (env : vhdl_support) (scope : vhdl_scope) (lpm : ivl_lpm_t) :
    (env.seen_signal_before lpm.ivl_lpm_array = false →
      array_lpm_to_expr env scope lpm = Except.ok none)
    ∧ (∀ adecl i, env.seen_signal_before lpm.ivl_lpm_array = true →
        scope.get_decl (env.get_renamed_signal lpm.ivl_lpm_array) = some adecl →
        env.nexus_to_var_ref scope lpm.ivl_lpm_select = some i →
        array_lpm_to_expr env scope lpm
          = Except.ok (some (vhdl_expr.var_ref
              (env.set_slice_index
                (vhdl_var_ref.mk (env.get_renamed_signal lpm.ivl_lpm_array)
                  (some adecl.type) none 0)
                (vhdl_expr.var_ref i))))) := by
  refine ⟨fun h => ?_, fun adecl i hs hd hi => ?_⟩
  · simp [array_lpm_to_expr, h]
  · simp [array_lpm_to_expr, hs, hd, hi, vhdl_var_ref.new]

/-- C11 on the sample array read: failure while the array has not been seen,
and `mem` indexed by `sel` once it has been seen and declared. -/
theorem array_lpm_to_expr_seen_witness :
    array_lpm_to_expr sample_support_unseen sample_array_scope (sample_lpm IVL_LPM_ARRAY)
      = Except.ok none
    ∧ array_lpm_to_expr sample_support sample_array_scope (sample_lpm IVL_LPM_ARRAY)
      = Except.ok (some (vhdl_expr.var_ref
          (vhdl_var_ref.mk "mem" (some (vhdl_type.nunsigned 8))
            (some (vhdl_expr.var_ref
              (vhdl_var_ref.new "sel" (some (vhdl_type.nunsigned 2))))) 0))) :=
  ⟨(array_lpm_to_expr_seen sample_support_unseen sample_array_scope
      (sample_lpm IVL_LPM_ARRAY)).1 rfl,
   (array_lpm_to_expr_seen sample_support sample_array_scope
      (sample_lpm IVL_LPM_ARRAY)).2
      { name := "mem", type := vhdl_type.nunsigned 8 }
      (vhdl_var_ref.new "sel" (some (vhdl_type.nunsigned 2))) rfl (by decide) rfl⟩

/-- C12 (as stated, refuted): the output nexus of the sample device does not
resolve and its output name `LPMu1_Out` is already declared in the scope, as a
4-bit signal.  `lpm_output` returns a reference of that name typed
`type_for(8, false)` and leaves the scope as it is, so the declaration the
scope holds under that name is the 4-bit one, not one of type
`type_for(8, false)`. -/
theorem lpm_output_declared_type_counterexample :
    sample_support.nexus_to_var_ref sample_clash_scope ((sample_lpm IVL_LPM_ADD).ivl_lpm_q 0)
        = none
    ∧ lpm_output sample_support sample_clash_scope (sample_lpm IVL_LPM_ADD)
        = Except.ok (vhdl_var_ref.mk "LPMu1_Out" (some (vhdl_type.nunsigned 8)) none 0,
            sample_clash_scope)
    ∧ sample_clash_scope.decls.filter (fun d => d.name == "LPMu1_Out")
        = [{ name := "LPMu1_Out", type := vhdl_type.nunsigned 4 }]
    ∧ vhdl_type.nunsigned 4
        ≠ vhdl_type.type_for (sample_lpm IVL_LPM_ADD).ivl_lpm_width
            ((sample_lpm IVL_LPM_ADD).ivl_lpm_signed != 0) := by
  refine ⟨rfl, ?_, ?_, ?_⟩
  · rw [lpm_output_eq]
    rfl
  · decide
  · decide

/-- C12 (amended): for a device with base name `n`, width `w` and signed flag `s`
whose output nexus does not resolve, the destination is the reference named
`LPM<n>_Out` of type `type_for(w, s)` (returned as it is for every kind but
part-select-PV, and with the slice set on it for part-select-PV); after the
call the scope holds a declaration of that name; when the name was not
declared before, that declaration is the one the call adds, of type
`type_for(w, s)`; when it was, the scope is unchanged.  The name depends only
on `n`. -/
theorem lpm_output_unnamed (env : vhdl_support) (scope : vhdl_scope) (lpm : ivl_lpm_t)
    (hq : env.nexus_to_var_ref scope (lpm.ivl_lpm_q 0) = none) :
    (lpm_output_ref env scope lpm).1
      = vhdl_var_ref.mk ("LPM" ++ lpm.ivl_lpm_basename ++ "_Out")
          (some (vhdl_type.type_for lpm.ivl_lpm_width (lpm.ivl_lpm_signed != 0))) none 0
    ∧ (lpm.ivl_lpm_type ≠ IVL_LPM_PART_PV →
        lpm_output env scope lpm
          = Except.ok (vhdl_var_ref.mk ("LPM" ++ lpm.ivl_lpm_basename ++ "_Out")
              (some (vhdl_type.type_for lpm.ivl_lpm_width (lpm.ivl_lpm_signed != 0))) none 0,
              (lpm_output_ref env scope lpm).2))
    ∧ (∀ off, lpm.ivl_lpm_type = IVL_LPM_PART_PV →
        part_select_base env (lpm_output_ref env scope lpm).2 lpm = Except.ok (some off) →
        lpm_output env scope lpm
          = Except.ok (env.set_slice
              (vhdl_var_ref.mk ("LPM" ++ lpm.ivl_lpm_basename ++ "_Out")
                (some (vhdl_type.type_for lpm.ivl_lpm_width (lpm.ivl_lpm_signed != 0)))
                none 0)
              off (unsigned_sub_one lpm.ivl_lpm_width),
              (lpm_output_ref env scope lpm).2))
    ∧ (lpm_output_ref env scope lpm).2.have_declared
          ("LPM" ++ lpm.ivl_lpm_basename ++ "_Out") = true
    ∧ (scope.have_declared ("LPM" ++ lpm.ivl_lpm_basename ++ "_Out") = false →
        (lpm_output_ref env scope lpm).2.decls
            = scope.decls ++
                [{ name := "LPM" ++ lpm.ivl_lpm_basename ++ "_Out"
                   type := vhdl_type.type_for lpm.ivl_lpm_width (lpm.ivl_lpm_signed != 0) }]
        ∧ (lpm_output_ref env scope lpm).2.get_decl
              ("LPM" ++ lpm.ivl_lpm_basename ++ "_Out")
            = some { name := "LPM" ++ lpm.ivl_lpm_basename ++ "_Out"
                     type := vhdl_type.type_for lpm.ivl_lpm_width
                       (lpm.ivl_lpm_signed != 0) })
    ∧ (scope.have_declared ("LPM" ++ lpm.ivl_lpm_basename ++ "_Out") = true →
        (lpm_output_ref env scope lpm).2 = scope)
    ∧ (∀ lpm2 : ivl_lpm_t, lpm2.ivl_lpm_basename = lpm.ivl_lpm_basename →
        lpm_output_name lpm2 = lpm_output_name lpm) := by
  have href : lpm_output_ref env scope lpm
      = (vhdl_var_ref.mk ("LPM" ++ lpm.ivl_lpm_basename ++ "_Out")
          (some (vhdl_type.type_for lpm.ivl_lpm_width (lpm.ivl_lpm_signed != 0))) none 0,
         if !scope.have_declared ("LPM" ++ lpm.ivl_lpm_basename ++ "_Out") then
           scope.add_decl
             { name := "LPM" ++ lpm.ivl_lpm_basename ++ "_Out"
               type := vhdl_type.type_for lpm.ivl_lpm_width (lpm.ivl_lpm_signed != 0) }
         else scope) := by
    simp only [lpm_output_ref, hq, lpm_output_name, vhdl_var_ref.new]
  refine ⟨by rw [href], ?_, ?_, ?_, ?_, ?_, ?_⟩
  · intro hk
    rw [lpm_output_eq, if_neg hk, href]
  · intro off hk hoff
    rw [lpm_output_eq, if_pos hk, hoff, href]
  · rw [href]
    cases hd : scope.have_declared ("LPM" ++ lpm.ivl_lpm_basename ++ "_Out")
    · simp [vhdl_scope.have_declared, vhdl_scope.add_decl]
    · simp [hd]
  · intro hd
    rw [href]
    simp only [hd, Bool.not_false, if_true]
    exact ⟨rfl, get_decl_add_decl scope _ hd⟩
  · intro hd
    rw [href]
    simp [hd]
  · intro lpm2 h2
    simp [lpm_output_name, h2]

/-- C12 (amended) on the sample adder in the sample scope: the reference
`LPMu1_Out` typed unsigned 8 bits, and its declaration added to the scope. -/
theorem lpm_output_unnamed_witness :
    lpm_output sample_support sample_scope (sample_lpm IVL_LPM_ADD)
      = Except.ok (vhdl_var_ref.mk "LPMu1_Out" (some (vhdl_type.nunsigned 8)) none 0,
          { decls := sample_scope.decls ++
              [{ name := "LPMu1_Out", type := vhdl_type.nunsigned 8 }] })
    ∧ (lpm_output_ref sample_support sample_scope (sample_lpm IVL_LPM_ADD)).2.get_decl
          "LPMu1_Out"
        = some { name := "LPMu1_Out", type := vhdl_type.nunsigned 8 } :=
  ⟨(lpm_output_unnamed sample_support sample_scope (sample_lpm IVL_LPM_ADD) rfl).2.1
      (by decide),
   ((lpm_output_unnamed sample_support sample_scope (sample_lpm IVL_LPM_ADD)
      rfl).2.2.2.2.1 (by decide)).2⟩

/-- C15: when `lpm_to_expr` fails, `draw_lpm` returns 0 and leaves the whole
architecture as it was: the statement list and the scope (no output
declaration is added, `lpm_output` is not reached); only the diagnostics of
the lowering are added.  The lowering fails in this way for an unsupported
kind, for an array that has not been seen, and for an unresolved data
input 0. -/
theorem draw_lpm_failure_frame (env : vhdl_support) (st : draw_state) (lpm : ivl_lpm_t) :
    (∀ errs, lpm_to_expr env st.arch.scope lpm = (Except.ok none, errs) →
      draw_lpm env st lpm
        = Except.ok (0, { arch := st.arch, errors := st.errors ++ errs }))
    ∧ (lpm.ivl_lpm_type.handled = false →
        lpm_to_expr env st.arch.scope lpm
          = (Except.ok none, [unsupported_lpm_type lpm.ivl_lpm_type]))
    ∧ (lpm.ivl_lpm_type = IVL_LPM_ARRAY →
        env.seen_signal_before lpm.ivl_lpm_array = false →
        lpm_to_expr env st.arch.scope lpm = (Except.ok none, []))
    ∧ (lpm.ivl_lpm_type = IVL_LPM_ADD ∨ lpm.ivl_lpm_type = IVL_LPM_SUB
        ∨ lpm.ivl_lpm_type = IVL_LPM_MULT ∨ lpm.ivl_lpm_type = IVL_LPM_PART_VP
        ∨ lpm.ivl_lpm_type = IVL_LPM_PART_PV ∨ lpm.ivl_lpm_type = IVL_LPM_SIGN_EXT
        ∨ lpm.ivl_lpm_type = IVL_LPM_RE_AND ∨ lpm.ivl_lpm_type = IVL_LPM_RE_NAND
        ∨ lpm.ivl_lpm_type = IVL_LPM_RE_NOR ∨ lpm.ivl_lpm_type = IVL_LPM_RE_OR
        ∨ lpm.ivl_lpm_type = IVL_LPM_RE_XOR ∨ lpm.ivl_lpm_type = IVL_LPM_RE_XNOR →
        env.nexus_to_var_ref st.arch.scope (lpm.ivl_lpm_data 0) = none →
        lpm_to_expr env st.arch.scope lpm = (Except.ok none, [])) := by
  refine ⟨?_, lpm_to_expr_default env st.arch.scope lpm, ?_, ?_⟩
  · intro errs hf
    simp [draw_lpm, hf]
  · intro hk hs
    simp [lpm_to_expr, hk, array_lpm_to_expr, hs]
  · intro hk h0
    rcases hk with hk | hk | hk | hk | hk | hk | hk | hk | hk | hk | hk | hk <;>
      simp [lpm_to_expr, hk, binop_lpm_to_expr, part_select_vp_lpm_to_expr,
        part_select_pv_lpm_to_expr, sign_extend_lpm_to_expr, reduction_lpm_to_expr, h0]

/-- C15 on the sample adder with unresolved inputs: the state is left as it
was. -/
theorem draw_lpm_failure_frame_witness :
    lpm_to_expr sample_support sample_state.arch.scope (sample_lpm_unresolved IVL_LPM_ADD)
        = (Except.ok none, [])
    ∧ draw_lpm sample_support sample_state (sample_lpm_unresolved IVL_LPM_ADD)
        = Except.ok (0, { arch := sample_state.arch, errors := sample_state.errors ++ [] }) :=
  ⟨rfl,
   (draw_lpm_failure_frame sample_support sample_state
      (sample_lpm_unresolved IVL_LPM_ADD)).1 [] rfl⟩

/-- C16 (the code at the failing input): for the sample adder whose data inputs
do not resolve, and for the sample array read while the array has not been
seen, the lowering fails, `draw_lpm` returns 0 and the list of reported errors
is still empty: no diagnostic is recorded. -/
theorem draw_lpm_silent_failure :
    sample_support.nexus_to_var_ref sample_scope
        ((sample_lpm_unresolved IVL_LPM_ADD).ivl_lpm_data 0) = none
    ∧ lpm_to_expr sample_support sample_scope (sample_lpm_unresolved IVL_LPM_ADD)
        = (Except.ok none, [])
    ∧ draw_lpm sample_support sample_state (sample_lpm_unresolved IVL_LPM_ADD)
        = Except.ok (0, { arch := { scope := sample_scope, stmts := [] }, errors := [] })
    ∧ sample_support_unseen.seen_signal_before (sample_lpm IVL_LPM_ARRAY).ivl_lpm_array = false
    ∧ draw_lpm sample_support_unseen sample_state (sample_lpm IVL_LPM_ARRAY)
        = Except.ok (0, { arch := { scope := sample_scope, stmts := [] }, errors := [] }) :=
  ⟨rfl, rfl, rfl, rfl, rfl⟩

/-- C17 (the code at the failing input): for the sample part-select-VP whose
operand resolves and whose dynamic base port is present on a nexus that does
not resolve, `part_select_base` calls `cast` on the `NULL` it got and the run
ends in a `NULL` dereference; the lowering does not return failure, as it does
when data input 0 does not resolve. -/
theorem part_select_vp_base_null_deref :
    (sample_lpm_base_unresolved IVL_LPM_PART_VP).ivl_lpm_data 1 = some 100
    ∧ sample_support.nexus_to_var_ref sample_scope (some 100) = none
    ∧ sample_support.nexus_to_var_ref sample_scope
        ((sample_lpm_base_unresolved IVL_LPM_PART_VP).ivl_lpm_data 0) = some ref_a
    ∧ part_select_base sample_support sample_scope (sample_lpm_base_unresolved IVL_LPM_PART_VP)
        = Except.error fault.null_deref
    ∧ part_select_vp_lpm_to_expr sample_support sample_scope
        (sample_lpm_base_unresolved IVL_LPM_PART_VP) = Except.error fault.null_deref
    ∧ part_select_vp_lpm_to_expr sample_support sample_scope
        (sample_lpm_base_unresolved IVL_LPM_PART_VP) ≠ Except.ok none
    ∧ part_select_vp_lpm_to_expr sample_support sample_scope
        (sample_lpm_unresolved IVL_LPM_PART_VP) = Except.ok none := by
  refine ⟨rfl, rfl, rfl, rfl, rfl, ?_, rfl⟩
  intro h
  have h2 : part_select_vp_lpm_to_expr sample_support sample_scope
      (sample_lpm_base_unresolved IVL_LPM_PART_VP) = Except.error fault.null_deref := rfl
  rw [h2] at h
  cases h

/-- C18: a user-function device with `n` input ports, input `i` resolving to
`r i` for every `i < n`, lowers to the call whose callee name is the base name
of the device and whose argument list has length `n`, with the resolution of
input `i` at position `i`: the inputs in increasing order. -/
theorem ufunc_lpm_to_expr_args (env : vhdl_support) (scope : vhdl_scope) (lpm : ivl_lpm_t)
    (r : Nat → vhdl_var_ref)
    (hres : ∀ i, i < lpm.ivl_lpm_size →
      env.nexus_to_var_ref scope (lpm.ivl_lpm_data i) = some (r i)) :
    ∃ args : List vhdl_expr,
      ufunc_lpm_to_expr env scope lpm
        = some (vhdl_expr.fcall lpm.ivl_lpm_basename none args)
      ∧ args.length = lpm.ivl_lpm_size
      ∧ (∀ i, i < lpm.ivl_lpm_size → args[i]? = some (vhdl_expr.var_ref (r i)))
      ∧ args = (List.range lpm.ivl_lpm_size).map (fun i => vhdl_expr.var_ref (r i)) := by
  have hloop := ufunc_loop_resolved env scope lpm r lpm.ivl_lpm_size 0 []
    (fun j _ h2 => hres j (by omega))
  refine ⟨(List.range lpm.ivl_lpm_size).map (fun i => vhdl_expr.var_ref (r i)), ?_, ?_, ?_, rfl⟩
  · simp [ufunc_lpm_to_expr, hloop, List.range_eq_range']
  · simp
  · intro i hi
    rw [List.getElem?_map, List.getElem?_range hi]
    rfl

/-- C18 on the sample user function of two inputs: the call `u1(a, b)`. -/
theorem ufunc_lpm_to_expr_args_witness :
    ∃ args : List vhdl_expr,
      ufunc_lpm_to_expr sample_support sample_scope (sample_lpm IVL_LPM_UFUNC)
        = some (vhdl_expr.fcall "u1" none args)
      ∧ args.length = 2
      ∧ (∀ i, i < 2 → args[i]? = some (vhdl_expr.var_ref
            ((fun i => if i = 0 then ref_a else ref_b) i)))
      ∧ args = (List.range 2).map (fun i => vhdl_expr.var_ref
            ((fun i => if i = 0 then ref_a else ref_b) i)) :=
  ufunc_lpm_to_expr_args sample_support sample_scope (sample_lpm IVL_LPM_UFUNC)
    (fun i => if i = 0 then ref_a else ref_b)
    (by
      intro i hi
      have h2 : i < 2 := hi
      interval_cases i <;> rfl)

/-- C19: a sign-extend device of declared width `w` whose data input 0 resolves
to `r` lowers to `r.resize(w)`; the result is the same for every device with
that input and that width, whatever its signed flag and other fields; an
unresolved input gives failure, and, `resize` never returning `NULL`, failure
is returned only then. -/
theorem sign_extend_lpm_to_expr_resize (env : vhdl_support) (scope : vhdl_scope)
    (lpm : ivl_lpm_t) :
    (∀ r, env.nexus_to_var_ref scope (lpm.ivl_lpm_data 0) = some r →
      sign_extend_lpm_to_expr env scope lpm
        = env.resize (vhdl_expr.var_ref r) lpm.ivl_lpm_width)
    ∧ (∀ lpm2 : ivl_lpm_t, lpm2.ivl_lpm_data 0 = lpm.ivl_lpm_data 0 →
        lpm2.ivl_lpm_width = lpm.ivl_lpm_width →
        sign_extend_lpm_to_expr env scope lpm2 = sign_extend_lpm_to_expr env scope lpm)
    ∧ (env.nexus_to_var_ref scope (lpm.ivl_lpm_data 0) = none →
        sign_extend_lpm_to_expr env scope lpm = none)
    ∧ ((∀ e w, env.resize e w ≠ none) →
        (sign_extend_lpm_to_expr env scope lpm = none
          ↔ env.nexus_to_var_ref scope (lpm.ivl_lpm_data 0) = none)) := by
  refine ⟨?_, ?_, ?_, ?_⟩
  · intro r h0
    simp [sign_extend_lpm_to_expr, h0]
  · intro lpm2 hd hw
    simp [sign_extend_lpm_to_expr, hd, hw]
  · intro h0
    simp [sign_extend_lpm_to_expr, h0]
  · intro hres
    cases h0 : env.nexus_to_var_ref scope (lpm.ivl_lpm_data 0) with
    | none => simp [sign_extend_lpm_to_expr, h0]
    | some r => simp [sign_extend_lpm_to_expr, h0, hres]

/-- C19 on the sample sign extension: `Resize(a, 8)`, typed as `a` is, also when
the signed flag of the device is set. -/
theorem sign_extend_lpm_to_expr_resize_witness :
    sign_extend_lpm_to_expr sample_support sample_scope (sample_lpm IVL_LPM_SIGN_EXT)
      = some (vhdl_expr.fcall "Resize" (some (vhdl_type.nunsigned 8))
          [vhdl_expr.var_ref ref_a, vhdl_expr.const_int 8])
    ∧ sign_extend_lpm_to_expr sample_support sample_scope
        { sample_lpm IVL_LPM_SIGN_EXT with ivl_lpm_signed := 1 }
      = sign_extend_lpm_to_expr sample_support sample_scope (sample_lpm IVL_LPM_SIGN_EXT)
    ∧ (sign_extend_lpm_to_expr sample_support sample_scope
          (sample_lpm_unresolved IVL_LPM_SIGN_EXT) = none
        ↔ sample_support.nexus_to_var_ref sample_scope
            ((sample_lpm_unresolved IVL_LPM_SIGN_EXT).ivl_lpm_data 0) = none) :=
  ⟨(sign_extend_lpm_to_expr_resize sample_support sample_scope
      (sample_lpm IVL_LPM_SIGN_EXT)).1 ref_a rfl,
   (sign_extend_lpm_to_expr_resize sample_support sample_scope
      (sample_lpm IVL_LPM_SIGN_EXT)).2.1
      { sample_lpm IVL_LPM_SIGN_EXT with ivl_lpm_signed := 1 } rfl rfl,
   (sign_extend_lpm_to_expr_resize sample_support sample_scope
      (sample_lpm_unresolved IVL_LPM_SIGN_EXT)).2.2.2
      (by intro e w h; simp [sample_support] at h)⟩

/-- C20 (as stated, refuted): the sample part-select-VP has constant base 2 and
width 8 and its operand `a` is 8 bits wide, so bits 2 to 9 are selected and
`2 + 8 > 8`; the lowering does not fail, it returns the slice of `a` at base 2
with extent 7. -/
theorem part_select_vp_out_of_range_counterexample :
    (sample_lpm_constant_base IVL_LPM_PART_VP).ivl_lpm_data 1 = none
    ∧ (sample_lpm_constant_base IVL_LPM_PART_VP).ivl_lpm_base = 2
    ∧ (sample_lpm_constant_base IVL_LPM_PART_VP).ivl_lpm_width = 8
    ∧ sample_support.nexus_to_var_ref sample_scope
        ((sample_lpm_constant_base IVL_LPM_PART_VP).ivl_lpm_data 0) = some ref_a
    ∧ ref_a.get_type = some (vhdl_type.nunsigned 8)
    ∧ 8 < (sample_lpm_constant_base IVL_LPM_PART_VP).ivl_lpm_base
          + (sample_lpm_constant_base IVL_LPM_PART_VP).ivl_lpm_width
    ∧ lpm_to_expr sample_support sample_scope (sample_lpm_constant_base IVL_LPM_PART_VP)
        = (Except.ok (some (vhdl_expr.var_ref
            (vhdl_var_ref.mk "a" (some (vhdl_type.nunsigned 8))
              (some (vhdl_expr.const_int 2)) 7))), []) := by
  refine ⟨rfl, rfl, rfl, rfl, rfl, ?_, rfl⟩
  decide

/-- C20 (amended): `part_select_vp_lpm_to_expr` makes no bounds check.  For a
part-select-VP device with a constant base (no second data port) whose data
input 0 resolves to `v`, the cast of the base constant yielding `c`, the
lowering succeeds with the slice of `v` at base `c` with extent `w - 1`,
whatever the type and width of `v`. -/
theorem part_select_vp_no_bounds_check (env : vhdl_support) (scope : vhdl_scope)
    (lpm : ivl_lpm_t) (v : vhdl_var_ref) (c : vhdl_expr)
    (hk : lpm.ivl_lpm_type = IVL_LPM_PART_VP)
    (h1 : lpm.ivl_lpm_data 1 = none)
    (h0 : env.nexus_to_var_ref scope (lpm.ivl_lpm_data 0) = some v)
    (hc : env.cast (vhdl_expr.const_int (lpm.ivl_lpm_base : Int)) vhdl_type.integer = some c) :
    lpm_to_expr env scope lpm
      = (Except.ok (some (vhdl_expr.var_ref
          (env.set_slice v c (unsigned_sub_one lpm.ivl_lpm_width)))), [])
    ∧ (lpm_to_expr env scope lpm).1 ≠ Except.ok none := by
  have h : lpm_to_expr env scope lpm
      = (Except.ok (some (vhdl_expr.var_ref
          (env.set_slice v c (unsigned_sub_one lpm.ivl_lpm_width)))), []) := by
    simp [lpm_to_expr, hk, part_select_vp_lpm_to_expr, h0, part_select_base, h1, hc]
  refine ⟨h, ?_⟩
  rw [h]
  intro hh
  cases hh

/-- C20 (amended) on the sample part-select-VP with constant base 2 and width 8
over the 2-bit signal `sel`: the slice of `sel` at base 2 with extent 7. -/
theorem part_select_vp_no_bounds_check_witness :
    lpm_to_expr sample_support sample_scope
        { sample_lpm IVL_LPM_PART_VP with
          ivl_lpm_data := fun i => if i = 0 then some 4 else none }
      = (Except.ok (some (vhdl_expr.var_ref
          (vhdl_var_ref.mk "sel" (some (vhdl_type.nunsigned 2))
            (some (vhdl_expr.const_int 2)) 7))), []) :=
  (part_select_vp_no_bounds_check sample_support sample_scope
    { sample_lpm IVL_LPM_PART_VP with
      ivl_lpm_data := fun i => if i = 0 then some 4 else none }
    (vhdl_var_ref.new "sel" (some (vhdl_type.nunsigned 2))) (vhdl_expr.const_int 2)
    rfl rfl rfl rfl).1

/-- C22: `lpm_output` adds at most one declaration, under the output name and
only when that name is not declared; so declared names that are pairwise
distinct before `lpm_output`, or before `draw_lpm`, are pairwise distinct
after it.  Two devices get the same output name only if their base names are
equal. -/
theorem lpm_output_names_unique (env : vhdl_support) (scope : vhdl_scope) (lpm : ivl_lpm_t) :
    (∀ out scope1, lpm_output env scope lpm = Except.ok (out, scope1) →
      (scope1 = scope
        ∨ (scope.have_declared ("LPM" ++ lpm.ivl_lpm_basename ++ "_Out") = false
            ∧ scope1.decls = scope.decls ++
                [{ name := "LPM" ++ lpm.ivl_lpm_basename ++ "_Out"
                   type := vhdl_type.type_for lpm.ivl_lpm_width
                     (lpm.ivl_lpm_signed != 0) }]))
      ∧ ((scope.decls.map (fun d => d.name)).Nodup →
          (scope1.decls.map (fun d => d.name)).Nodup))
    ∧ ((scope.decls.map (fun d => d.name)).Nodup →
        ((lpm_output_ref env scope lpm).2.decls.map (fun d => d.name)).Nodup)
    ∧ (∀ (st : draw_state) (rc : Int) (st1 : draw_state),
        draw_lpm env st lpm = Except.ok (rc, st1) →
        (st.arch.scope.decls.map (fun d => d.name)).Nodup →
        (st1.arch.scope.decls.map (fun d => d.name)).Nodup)
    ∧ (∀ n1 n2 : String, "LPM" ++ n1 ++ "_Out" = "LPM" ++ n2 ++ "_Out" → n1 = n2) := by
  refine ⟨?_, lpm_output_ref_nodup env scope lpm, ?_, ?_⟩
  · intro out scope1 hout
    have hs := lpm_output_scope env scope lpm out scope1 hout
    subst hs
    refine ⟨?_, lpm_output_ref_nodup env scope lpm⟩
    rcases lpm_output_ref_scope_cases env scope lpm with h1 | ⟨hd, h1⟩
    · exact Or.inl h1
    · exact Or.inr ⟨hd, by rw [h1]; rfl⟩
  · intro st rc st1 hdraw hn
    unfold draw_lpm at hdraw
    dsimp only at hdraw
    cases hl : (lpm_to_expr env st.arch.scope lpm).1 with
    | error f => rw [hl] at hdraw; simp at hdraw
    | ok o =>
      cases o with
      | none =>
        rw [hl] at hdraw
        simp only [Except.ok.injEq, Prod.mk.injEq] at hdraw
        rw [← hdraw.2]
        exact hn
      | some f =>
        rw [hl] at hdraw
        cases ho : lpm_output env st.arch.scope lpm with
        | error e => rw [ho] at hdraw; simp at hdraw
        | ok q =>
          obtain ⟨out, scope1⟩ := q
          rw [ho] at hdraw
          simp only [Except.ok.injEq, Prod.mk.injEq] at hdraw
          rw [← hdraw.2]
          have hs := lpm_output_scope env st.arch.scope lpm out scope1 ho
          simp only [vhdl_arch.add_stmt]
          rw [hs]
          exact lpm_output_ref_nodup env st.arch.scope lpm hn
  · intro n1 n2 hname
    have h1 := congrArg String.data hname
    simp only [String.data_append] at h1
    exact String.ext (List.append_cancel_left (List.append_cancel_right h1))

/-- C22 on the sample adder in the sample scope: the names `a, b, c, d, sel` are
pairwise distinct, and so are the names after `lpm_output` has added
`LPMu1_Out`. -/
theorem lpm_output_names_unique_witness :
    (sample_scope.decls.map (fun d => d.name)).Nodup
    ∧ (({ decls := sample_scope.decls ++
            [{ name := "LPMu1_Out", type := vhdl_type.nunsigned 8 }] } : vhdl_scope).decls.map
          (fun d => d.name)).Nodup :=
  ⟨by decide,
   ((lpm_output_names_unique sample_support sample_scope (sample_lpm IVL_LPM_ADD)).1
      (vhdl_var_ref.mk "LPMu1_Out" (some (vhdl_type.nunsigned 8)) none 0)
      { decls := sample_scope.decls ++
          [{ name := "LPMu1_Out", type := vhdl_type.nunsigned 8 }] }
      rfl).2 (by decide)⟩

/-- C23: for an add, sub or mult device the lowering succeeds exactly when data
inputs 0 and 1 resolve; for a concatenation of `k` inputs (`k - 1`
representable in the `int` loop variable) exactly when inputs `0..k-1` resolve;
for a user function of `n` inputs exactly when inputs `0..n-1` resolve.  When
one of them does not resolve the result is failure (`NULL`), not an
expression. -/
theorem lowering_succeeds_iff_resolved (env : vhdl_support) (scope : vhdl_scope)
    (lpm : ivl_lpm_t) :
    (lpm.ivl_lpm_type = IVL_LPM_ADD ∨ lpm.ivl_lpm_type = IVL_LPM_SUB
        ∨ lpm.ivl_lpm_type = IVL_LPM_MULT →
      ((∃ e, lpm_to_expr env scope lpm = (Except.ok (some e), []))
        ↔ ((env.nexus_to_var_ref scope (lpm.ivl_lpm_data 0)).isSome = true
            ∧ (env.nexus_to_var_ref scope (lpm.ivl_lpm_data 1)).isSome = true))
      ∧ (¬ ((env.nexus_to_var_ref scope (lpm.ivl_lpm_data 0)).isSome = true
            ∧ (env.nexus_to_var_ref scope (lpm.ivl_lpm_data 1)).isSome = true) →
          lpm_to_expr env scope lpm = (Except.ok none, [])))
    ∧ (lpm.ivl_lpm_type = IVL_LPM_CONCAT → lpm.ivl_lpm_selects ≤ 2147483648 →
      ((∃ e, lpm_to_expr env scope lpm = (Except.ok (some e), []))
        ↔ (∀ i, i < lpm.ivl_lpm_selects →
            (env.nexus_to_var_ref scope (lpm.ivl_lpm_data i)).isSome = true))
      ∧ (¬ (∀ i, i < lpm.ivl_lpm_selects →
            (env.nexus_to_var_ref scope (lpm.ivl_lpm_data i)).isSome = true) →
          lpm_to_expr env scope lpm = (Except.ok none, [])))
    ∧ (lpm.ivl_lpm_type = IVL_LPM_UFUNC →
      ((∃ e, lpm_to_expr env scope lpm = (Except.ok (some e), []))
        ↔ (∀ i, i < lpm.ivl_lpm_size →
            (env.nexus_to_var_ref scope (lpm.ivl_lpm_data i)).isSome = true))
      ∧ (¬ (∀ i, i < lpm.ivl_lpm_size →
            (env.nexus_to_var_ref scope (lpm.ivl_lpm_data i)).isSome = true) →
          lpm_to_expr env scope lpm = (Except.ok none, []))) := by
  refine ⟨?_, ?_, ?_⟩
  · intro hk
    cases h0 : env.nexus_to_var_ref scope (lpm.ivl_lpm_data 0) with
    | none =>
      rcases hk with hk | hk | hk <;> simp [lpm_to_expr, hk, binop_lpm_to_expr, h0]
    | some e0 =>
      cases h1 : env.nexus_to_var_ref scope (lpm.ivl_lpm_data 1) with
      | none =>
        rcases hk with hk | hk | hk <;> simp [lpm_to_expr, hk, binop_lpm_to_expr, h0, h1]
      | some e1 =>
        rcases hk with hk | hk | hk <;> simp [lpm_to_expr, hk, binop_lpm_to_expr, h0, h1]
  · intro hk hsel
    have hiff := concat_loop_isSome env scope lpm lpm.ivl_lpm_selects []
    have hc : concat_lpm_to_expr env scope lpm
        = (concat_loop env scope lpm lpm.ivl_lpm_selects []).map
            (fun operands => vhdl_expr.binop_expr VHDL_BINOP_CONCAT
              (some (vhdl_type.type_for lpm.ivl_lpm_width (lpm.ivl_lpm_signed != 0)))
              operands) := by
      unfold concat_lpm_to_expr
      dsimp only
      rw [concat_iterations _ hsel]
      cases concat_loop env scope lpm lpm.ivl_lpm_selects [] <;> rfl
    have hl : lpm_to_expr env scope lpm = (Except.ok (concat_lpm_to_expr env scope lpm), []) := by
      simp only [lpm_to_expr, hk]
    rw [hl, hc]
    cases hloop : concat_loop env scope lpm lpm.ivl_lpm_selects [] with
    | none =>
      rw [hloop] at hiff
      simp only [Option.isSome_none, Bool.false_eq_true, false_iff] at hiff
      simp [hiff]
    | some ops =>
      rw [hloop] at hiff
      simp only [Option.isSome_some, true_iff] at hiff
      exact ⟨⟨fun _ => hiff, fun _ => ⟨_, rfl⟩⟩, fun hn => absurd hiff hn⟩
  · intro hk
    have hiff := ufunc_loop_isSome env scope lpm lpm.ivl_lpm_size 0 []
    have hall : (∀ j, 0 ≤ j → j < 0 + lpm.ivl_lpm_size →
          (env.nexus_to_var_ref scope (lpm.ivl_lpm_data j)).isSome = true)
        ↔ (∀ i, i < lpm.ivl_lpm_size →
          (env.nexus_to_var_ref scope (lpm.ivl_lpm_data i)).isSome = true) := by
      constructor
      · intro h i hi
        exact h i (Nat.zero_le i) (by omega)
      · intro h j _ hj
        exact h j (by omega)
    rw [hall] at hiff
    have hl : lpm_to_expr env scope lpm = (Except.ok (ufunc_lpm_to_expr env scope lpm), []) := by
      simp only [lpm_to_expr, hk]
    rw [hl]
    unfold ufunc_lpm_to_expr
    cases hloop : ufunc_loop env scope lpm lpm.ivl_lpm_size 0 [] with
    | none =>
      rw [hloop] at hiff
      simp only [Option.isSome_none, Bool.false_eq_true, false_iff] at hiff
      simp [hiff]
    | some ops =>
      rw [hloop] at hiff
      simp only [Option.isSome_some, true_iff] at hiff
      exact ⟨⟨fun _ => hiff, fun _ => ⟨_, rfl⟩⟩, fun hn => absurd hiff hn⟩

/-- C23 on the sample adder, whose inputs resolve, and on the sample adder with
unresolved inputs, whose lowering is failure. -/
theorem lowering_succeeds_iff_resolved_witness :
    (∃ e, lpm_to_expr sample_support sample_scope (sample_lpm IVL_LPM_ADD)
        = (Except.ok (some e), []))
    ∧ lpm_to_expr sample_support sample_scope (sample_lpm_unresolved IVL_LPM_ADD)
        = (Except.ok none, []) :=
  ⟨((lowering_succeeds_iff_resolved sample_support sample_scope (sample_lpm IVL_LPM_ADD)).1
      (Or.inl rfl)).1.mpr ⟨rfl, rfl⟩,
   ((lowering_succeeds_iff_resolved sample_support sample_scope
      (sample_lpm_unresolved IVL_LPM_ADD)).1 (Or.inl rfl)).2
      (by intro h; exact absurd h.1 (by decide))⟩

/-- C24: in both part-select paths the extent handed to `set_slice` is the
`unsigned` value `w - 1` of the declared width `w`, that is `(w - 1) mod 2^32`.
For `1 <= w < 2^32` it is the mathematical `w - 1`, without wrap-around, and
lies in `[0, w)`; for `w = 0` it is `2^32 - 1`. -/
theorem part_select_extent (env : vhdl_support) (scope : vhdl_scope) (lpm : ivl_lpm_t) :
    (∀ v off, env.nexus_to_var_ref scope (lpm.ivl_lpm_data 0) = some v →
      part_select_base env scope lpm = Except.ok (some off) →
      part_select_vp_lpm_to_expr env scope lpm
        = Except.ok (some (vhdl_expr.var_ref
            (env.set_slice v off (unsigned_sub_one lpm.ivl_lpm_width)))))
    ∧ (∀ off, lpm.ivl_lpm_type = IVL_LPM_PART_PV →
        part_select_base env (lpm_output_ref env scope lpm).2 lpm = Except.ok (some off) →
        lpm_output env scope lpm
          = Except.ok (env.set_slice (lpm_output_ref env scope lpm).1 off
              (unsigned_sub_one lpm.ivl_lpm_width), (lpm_output_ref env scope lpm).2))
    ∧ ((unsigned_sub_one lpm.ivl_lpm_width : Int)
        = ((lpm.ivl_lpm_width : Int) - 1) % 4294967296)
    ∧ (1 ≤ lpm.ivl_lpm_width → lpm.ivl_lpm_width < 4294967296 →
        unsigned_sub_one lpm.ivl_lpm_width = lpm.ivl_lpm_width - 1
        ∧ (unsigned_sub_one lpm.ivl_lpm_width : Int) = (lpm.ivl_lpm_width : Int) - 1
        ∧ unsigned_sub_one lpm.ivl_lpm_width < lpm.ivl_lpm_width)
    ∧ unsigned_sub_one 0 = 4294967295 := by
  refine ⟨?_, ?_, ?_, ?_, ?_⟩
  · intro v off h0 hoff
    simp [part_select_vp_lpm_to_expr, h0, hoff]
  · intro off hk hoff
    rw [lpm_output_eq, if_pos hk, hoff]
  · unfold unsigned_sub_one
    omega
  · intro h1 h2
    unfold unsigned_sub_one
    omega
  · unfold unsigned_sub_one
    omega

/-- C24 on the sample part-select-VP of width 8: extent 7. -/
theorem part_select_extent_witness :
    part_select_vp_lpm_to_expr sample_support sample_scope
        (sample_lpm_constant_base IVL_LPM_PART_VP)
      = Except.ok (some (vhdl_expr.var_ref
          (vhdl_var_ref.mk "a" (some (vhdl_type.nunsigned 8))
            (some (vhdl_expr.const_int 2)) 7)))
    ∧ unsigned_sub_one 8 = 8 - 1
    ∧ unsigned_sub_one 8 < 8 :=
  ⟨(part_select_extent sample_support sample_scope
      (sample_lpm_constant_base IVL_LPM_PART_VP)).1 ref_a (vhdl_expr.const_int 2) rfl rfl,
   ((part_select_extent sample_support sample_scope
      (sample_lpm_constant_base IVL_LPM_PART_VP)).2.2.2.1 (by decide) (by decide)).1,
   ((part_select_extent sample_support sample_scope
      (sample_lpm_constant_base IVL_LPM_PART_VP)).2.2.2.1 (by decide) (by decide)).2.2⟩

/-- C25 (the code at the failing input): for the sample part-select-VP whose
operand resolves and whose dynamic base port is present on a nexus that does
not resolve, `lpm_to_expr` and `draw_lpm` end in the `NULL` dereference of
`part_select_base`, and so does `lpm_output` for the sample part-select-PV with
such a base, before its `assert(off)` is reached: the failure is not returned
as a local failure, as it is for the same device with data input 0
unresolved. -/
theorem lowering_base_null_deref_aborts :
    (sample_lpm_base_unresolved IVL_LPM_PART_VP).ivl_lpm_data 1 = some 100
    ∧ sample_support.nexus_to_var_ref sample_scope (some 100) = none
    ∧ sample_support.nexus_to_var_ref sample_scope
        ((sample_lpm_base_unresolved IVL_LPM_PART_VP).ivl_lpm_data 0) = some ref_a
    ∧ lpm_to_expr sample_support sample_scope (sample_lpm_base_unresolved IVL_LPM_PART_VP)
        = (Except.error fault.null_deref, [])
    ∧ draw_lpm sample_support sample_state (sample_lpm_base_unresolved IVL_LPM_PART_VP)
        = Except.error fault.null_deref
    ∧ lpm_output sample_support sample_scope (sample_lpm_base_unresolved IVL_LPM_PART_PV)
        = Except.error fault.null_deref
    ∧ lpm_to_expr sample_support sample_scope (sample_lpm_unresolved IVL_LPM_PART_VP)
        = (Except.ok none, []) := by
  refine ⟨rfl, rfl, rfl, rfl, rfl, ?_, rfl⟩
  rw [lpm_output_eq]
  rfl

end TgtVhdl
